import Mathlib

namespace VP

/-!
Verification development for the VPAgent repository (visa-pack generator).

The Python sources are shallowly embedded: pure functions become Lean
functions, stateful pipeline steps become functional updates of a plan
record, fallible code returns Except, and the external collaborators
(HTTP providers, the text-generation service) are parameters of the
embedded functions, following section 6 of the spec which treats them as
abstract sources of result records.  Machine floats are modelled by
exact rationals; every value the claims touch is exactly representable.
Calendar dates are modelled by a year/month/day structure together with
the proleptic Gregorian ordinal, mirroring the semantics of the
datetime.date values the code manipulates through ISO strings.
-/
/-- Error kinds a Python exception can carry in the embedded code. -/
inductive PyErr where
  | valueError
  | indexError
  | typeError
  | runtimeError
deriving DecidableEq, Repr

/-- Whitespace predicate used by str.strip and str.split (ASCII subset,
which covers every string the pipeline builds). -/
def pySpace (c : Char) : Bool :=
  c = ' ' || c = '\t' || c = '\n' || c = '\x0d' || c = '\x0b' || c = '\x0c'

/-- Embeds str.lower (ASCII case folding, sufficient for the tables and
band names the code compares). -/
def pyLower (s : String) : String :=
  String.mk (s.data.map Char.toLower)

/-- Embeds str.upper. -/
def pyUpper (s : String) : String :=
  String.mk (s.data.map Char.toUpper)

/-- Embeds str.strip() with no argument: drop whitespace on both ends. -/
def pyStrip (s : String) : String :=
  String.mk (((s.data.dropWhile pySpace).reverse.dropWhile pySpace).reverse)

/-- Embeds str.split() with no argument: split on whitespace runs,
discarding empty fields. -/
def pySplitWsAux : List Char → List Char → List String
  | [], acc => if acc.isEmpty then [] else [String.mk acc.reverse]
  | c :: rest, acc =>
    if pySpace c then
      if acc.isEmpty then pySplitWsAux rest [] else String.mk acc.reverse :: pySplitWsAux rest []
    else
      pySplitWsAux rest (c :: acc)

/-- Embeds str.split() with no argument. -/
def pySplitWs (s : String) : List String :=
  pySplitWsAux s.data []

/-- Python truthiness of a string: empty is falsy. -/
def pyOrStr (a dflt : String) : String :=
  if a = "" then dflt else a

/-- Python `a or b` for optional strings: None and the empty string are
falsy. -/
def pyOrOptStr (a b : Option String) : Option String :=
  match a with
  | some s => if s = "" then b else some s
  | none => b

/-- Splits a character list at every occurrence of a separator, as
str.split(sep) with a one-character separator. -/
def splitOnChar (sep : Char) : List Char → List (List Char)
  | [] => [[]]
  | c :: rest =>
    if c = sep then [] :: splitOnChar sep rest
    else
      match splitOnChar sep rest with
      | p :: ps => (c :: p) :: ps
      | [] => [[c]]

/-- String split on a one-character separator. -/
def pySplit1 (sep : Char) (s : String) : List String :=
  (splitOnChar sep s.data).map String.mk

/-- Substring test, as the Python `in` operator on strings. -/
def subIn (needle hay : List Char) : Bool :=
  if needle.isPrefixOf hay then true
  else
    match hay with
    | [] => false
    | _ :: t => subIn needle t

/-- String containment helper. -/
def strIn (needle hay : String) : Bool :=
  subIn needle.data hay.data

/-- Values appearing in provider / model JSON rows: numbers or strings.
Null-valued keys are collapsed with absent keys into Option.none; the
claims do not distinguish them. -/
inductive JVal where
  | jnum (q : ℚ)
  | jstr (s : String)
deriving DecidableEq, Repr

/-- Python truthiness of a JSON value. -/
def JVal.truthy : JVal → Bool
  | .jnum q => q ≠ 0
  | .jstr s => s ≠ ""

/-- Python `a or b` over optional JSON values. -/
def pyOrJ (a b : Option JVal) : Option JVal :=
  match a with
  | some v => if v.truthy then some v else b
  | none => b

/-- Python int() truncation of a rational toward zero. -/
def pyTrunc (q : ℚ) : Int :=
  Int.tdiv q.num (Int.ofNat q.den)

/-- Python round() with round-half-to-even on rationals. -/
def pyRound (q : ℚ) : Int :=
  let f := Int.floor q
  let frac := q - (f : ℚ)
  if frac < 1/2 then f
  else if frac > 1/2 then f + 1
  else if f % 2 = 0 then f else f + 1

/-! ## Calendar model

Dates are year/month/day triples.  dateOrd is the proleptic Gregorian
ordinal (days since 0000-12-31), matching datetime.date.toordinal; the
code never manipulates dates except through parsing, one-day steps and
ISO re-serialisation, so a Date plus this ordinal captures exactly the
observable behaviour. -/
/-- Calendar date as stored in a datetime.date. -/
structure Date where
  year : Nat
  month : Nat
  day : Nat
deriving DecidableEq, Repr

/-- Gregorian leap-year rule. -/
def isLeap (y : Nat) : Bool :=
  decide ((y % 4 = 0 ∧ y % 100 ≠ 0) ∨ y % 400 = 0)

/-- Number of days in month m of year y (months numbered from 1). -/
def monthLen (y m : Nat) : Nat :=
  if m = 2 then (if isLeap y then 29 else 28)
  else if m = 4 ∨ m = 6 ∨ m = 9 ∨ m = 11 then 30
  else 31

/-- Days contained in months 1..m of year y. -/
def daysThru (y : Nat) : Nat → Nat
  | 0 => 0
  | m + 1 => daysThru y m + monthLen y (m + 1)

/-- Count of leap years in 1..n. -/
def leapsUpTo (n : Nat) : Nat :=
  n / 4 - n / 100 + n / 400

/-- Proleptic Gregorian ordinal of a date, as datetime.date.toordinal. -/
def dateOrd (d : Date) : Nat :=
  365 * (d.year - 1) + leapsUpTo (d.year - 1) + daysThru d.year (d.month - 1) + d.day

/-- Validity of a date tuple, as enforced by the datetime constructor
(MINYEAR = 1; months 1..12; days 1..month length). -/
def Date.valid (d : Date) : Prop :=
  1 ≤ d.year ∧ 1 ≤ d.month ∧ d.month ≤ 12 ∧ 1 ≤ d.day ∧ d.day ≤ monthLen d.year d.month

instance (d : Date) : Decidable d.valid := by
  unfold Date.valid; infer_instance

/-- Calendar successor of a date (one timedelta(days=1) step). -/
def succDate (d : Date) : Date :=
  if d.day < monthLen d.year d.month then ⟨d.year, d.month, d.day + 1⟩
  else if d.month < 12 then ⟨d.year, d.month + 1, 1⟩
  else ⟨d.year + 1, 1, 1⟩

/-- Adds n calendar days to a date, as date + timedelta(days=n). -/
def addDays (d : Date) (n : Nat) : Date :=
  succDate^[n] d

/-- Loop body of make_date_list: collect dates while current <= end.
The fuel argument makes the while loop structurally recursive; on valid
inputs it is exactly the number of iterations the Python loop performs. -/
def dateRangeAux (endOrd : Nat) : Nat → Date → List Date
  | 0, _ => []
  | fuel + 1, cur =>
    if dateOrd cur ≤ endOrd then cur :: dateRangeAux endOrd fuel (succDate cur)
    else []

/-- Embeds make_date_list from vp_generator/utils.py on already parsed
dates: every date from start through end inclusive, stepping one day. -/
def make_date_list (ds de : Date) : List Date :=
  dateRangeAux (dateOrd de) (dateOrd de + 1 - dateOrd ds) ds

/-! ## ISO date parsing

Embeds datetime.strptime(s, "%Y-%m-%d") followed by the datetime.date
constructor validation, as performed by make_date_list and friends:
four year digits, a one-or-two digit month 1-12, a one-or-two digit
day 1-31 (per the strptime field patterns), full-string match, then the
calendar check day <= month length and year >= 1.  Digits are ASCII. -/
/-- Numeric value of a decimal ASCII digit. -/
def digitVal (c : Char) : Nat :=
  c.toNat - 48

/-- Decimal ASCII digit predicate. -/
def isDig (c : Char) : Prop :=
  48 ≤ c.toNat ∧ c.toNat ≤ 57

instance (c : Char) : Decidable (isDig c) := by
  unfold isDig; infer_instance

/-- Parses the %Y field: exactly four digits. -/
def yearToken (cs : List Char) : Option Nat :=
  match cs with
  | [a, b, c, d] =>
    if isDig a ∧ isDig b ∧ isDig c ∧ isDig d then
      some (digitVal a * 1000 + digitVal b * 100 + digitVal c * 10 + digitVal d)
    else none
  | _ => none

/-- Parses the %m field: one digit 1-9 or two digits with value 1-12. -/
def monthToken (cs : List Char) : Option Nat :=
  match cs with
  | [a] => if isDig a ∧ digitVal a ≠ 0 then some (digitVal a) else none
  | [a, b] =>
    if isDig a ∧ isDig b then
      if 1 ≤ digitVal a * 10 + digitVal b ∧ digitVal a * 10 + digitVal b ≤ 12 then
        some (digitVal a * 10 + digitVal b)
      else none
    else none
  | _ => none

/-- Parses the %d field: one digit 1-9 or two digits with value 1-31. -/
def dayToken (cs : List Char) : Option Nat :=
  match cs with
  | [a] => if isDig a ∧ digitVal a ≠ 0 then some (digitVal a) else none
  | [a, b] =>
    if isDig a ∧ isDig b then
      if 1 ≤ digitVal a * 10 + digitVal b ∧ digitVal a * 10 + digitVal b ≤ 31 then
        some (digitVal a * 10 + digitVal b)
      else none
    else none
  | _ => none

/-- Embeds strptime("%Y-%m-%d") plus date construction: returns the
parsed date or none where Python raises ValueError. -/
def parse_date (s : String) : Option Date :=
  match pySplit1 '-' s with
  | [ys, ms, dcs] =>
    match yearToken ys.data, monthToken ms.data, dayToken dcs.data with
    | some y, some m, some d =>
      if 1 ≤ y ∧ d ≤ monthLen y m then some ⟨y, m, d⟩ else none
    | _, _, _ => none
  | _ => none

/-! ## Remaining utils (vp_generator/utils.py) and string formatting -/
/-- Splits a list into consecutive chunks of n elements (n at least 1);
embeds the slicing loops of the code (itinerary segments of 8 dates,
digit grouping of 3). -/
def chunksFuel {α : Type} (n : Nat) : Nat → List α → List (List α)
  | 0, _ => []
  | _ + 1, [] => []
  | fuel + 1, x :: rest => (x :: rest).take n :: chunksFuel n fuel (rest.drop (n - 1))

/-- Chunking entry point: the fuel of one element per step always
suffices since every chunk consumes at least one element. -/
def chunksOf {α : Type} (n : Nat) (l : List α) : List (List α) :=
  chunksFuel n l.length l

/-- Sentence splitter of truncate_summary with a character-count fuel
(each step consumes at least one character, so a fuel of the input
length makes the fuel bound unreachable): breaks at whitespace runs
whose preceding character is one of . ! ?, consuming the run, as
re.split with a lookbehind does. -/
def sentSplitFuel (stop : Char → Bool) : Nat → List Char → List Char → List (List Char)
  | 0, _, acc => [acc.reverse]
  | fuel + 1, cs, acc =>
    match cs with
    | [] => [acc.reverse]
    | c :: rest =>
      if pySpace c && (match acc with | p :: _ => stop p | [] => false) then
        acc.reverse :: sentSplitFuel stop fuel ((c :: rest).dropWhile pySpace) []
      else
        sentSplitFuel stop fuel rest (c :: acc)

/-- Sentence splitter entry point. -/
def sentSplitAux (stop : Char → Bool) (cs : List Char) (acc : List Char) :
    List (List Char) :=
  sentSplitFuel stop cs.length cs acc

/-- Sentence-ending characters of truncate_summary. -/
def sentStop (c : Char) : Bool :=
  c = '.' || c = '!' || c = '?'

/-- Embeds truncate_summary: newline removal, sentence cap, word cap
with the ellipsis marker the source file carries. -/
def truncate_summary (summary : String) (max_words : Nat := 30) (max_sentences : Nat := 2) :
    String :=
  let text := pyStrip (String.mk (summary.data.map (fun c => if c = '\n' then ' ' else c)))
  let parts0 := (sentSplitAux sentStop text.data []).map String.mk
  let parts1 := parts0.filter (fun s => s ≠ "")
  let parts := if parts1.length > max_sentences then parts1.take max_sentences else parts1
  let truncated := String.intercalate " " parts
  let words := pySplitWs truncated
  if words.length > max_words then
    String.intercalate " " (words.take max_words) ++ "â€¦"
  else truncated

/-- Parses exactly two ASCII digits. -/
def twoDigits (cs : List Char) : Option Nat :=
  match cs with
  | [a, b] => if isDig a ∧ isDig b then some (digitVal a * 10 + digitVal b) else none
  | _ => none

/-- Strict ISO date of datetime.fromisoformat: zero-padded YYYY-MM-DD. -/
def parse_iso_date_strict (s : String) : Option Date :=
  match pySplit1 '-' s with
  | [ys, ms, dcs] => do
    let y ← yearToken ys.data
    let m ← twoDigits ms.data
    let d ← twoDigits dcs.data
    if 1 ≤ y ∧ 1 ≤ m ∧ m ≤ 12 ∧ 1 ≤ d ∧ d ≤ monthLen y m then some ⟨y, m, d⟩ else none
  | _ => none

/-- Time of day. -/
structure TimeOfDay where
  hour : Nat
  minute : Nat
  second : Nat
deriving DecidableEq, Repr

/-- Strict ISO time HH:MM or HH:MM:SS of datetime.fromisoformat (the
pipeline builds no fractional or zoned timestamps). -/
def parse_iso_time_strict (s : String) : Option TimeOfDay :=
  match pySplit1 ':' s with
  | [hs, ms] => do
    let h ← twoDigits hs.data
    let m ← twoDigits ms.data
    if h ≤ 23 ∧ m ≤ 59 then some ⟨h, m, 0⟩ else none
  | [hs, ms, ss] => do
    let h ← twoDigits hs.data
    let m ← twoDigits ms.data
    let sec ← twoDigits ss.data
    if h ≤ 23 ∧ m ≤ 59 ∧ sec ≤ 59 then some ⟨h, m, sec⟩ else none
  | _ => none

/-- Embeds _parse_iso from utils.py: datetime.fromisoformat when a T is
present, else strptime("%Y-%m-%d"); None where Python gets ValueError. -/
def parse_iso (value : String) : Option (Date × TimeOfDay) :=
  if value = "" then none
  else if value.data.contains 'T' then
    match pySplit1 'T' value with
    | [ds, ts] => do
      let d ← parse_iso_date_strict ds
      let t ← parse_iso_time_strict ts
      pure (d, t)
    | _ => none
  else
    (parse_date value).map (fun d => (d, ⟨0, 0, 0⟩))

/-- Weekday name of a date (ordinal 1 = 0001-01-01 = Monday). -/
def weekdayName (d : Date) : String :=
  match (dateOrd d - 1) % 7 with
  | 0 => "Monday"
  | 1 => "Tuesday"
  | 2 => "Wednesday"
  | 3 => "Thursday"
  | 4 => "Friday"
  | 5 => "Saturday"
  | _ => "Sunday"

/-- Month abbreviation of strftime %b (C locale). -/
def monthAbbr (m : Nat) : String :=
  match m with
  | 1 => "Jan" | 2 => "Feb" | 3 => "Mar" | 4 => "Apr" | 5 => "May" | 6 => "Jun"
  | 7 => "Jul" | 8 => "Aug" | 9 => "Sep" | 10 => "Oct" | 11 => "Nov" | _ => "Dec"

/-- Two-digit zero padding of strftime %d / %I / %M. -/
def pad2 (n : Nat) : String :=
  if n < 10 then "0" ++ toString n else toString n

/-- Renders a date in the FRIENDLY_DATE_FMT style "%A %b %d %Y". -/
def friendlyOfDate (d : Date) : String :=
  weekdayName d ++ " " ++ monthAbbr d.month ++ " " ++ pad2 d.day ++ " " ++ toString d.year

/-- Embeds format_friendly_date: parse, else echo the raw value. -/
def format_friendly_date (value : String) : String :=
  match parse_iso value with
  | none => value
  | some (d, _) => friendlyOfDate d

/-- Embeds format_friendly_date on an itinerary date the model already
holds in parsed form. -/
def format_friendly_date_of_date (d : Date) : String :=
  friendlyOfDate d

/-- Embeds format_friendly_datetime: friendly date plus 12-hour time
with the leading zero stripped. -/
def format_friendly_datetime (value : String) : String :=
  match parse_iso value with
  | none => value
  | some (d, t) =>
    let hour12 := if t.hour % 12 = 0 then 12 else t.hour % 12
    let ampm := if t.hour < 12 then "AM" else "PM"
    let time_str0 := pad2 hour12 ++ ":" ++ pad2 t.minute ++ " " ++ ampm
    let time_str := String.mk (time_str0.data.dropWhile (fun c => c = '0'))
    friendlyOfDate d ++ " at " ++ time_str

/-- Digit grouping of the format spec {:,} on a natural number. -/
def commaFmtNat (n : Nat) : String :=
  String.mk (List.intercalate [','] (chunksOf 3 (toString n).data.reverse)).reverse

/-- Digit grouping of the format spec {:,} on an integer. -/
def commaFmt (i : Int) : String :=
  if i < 0 then "-" ++ commaFmtNat i.natAbs else commaFmtNat i.natAbs

/-- Embeds str.title(): first letter of every alphabetic run upper-case,
the rest lower-case. -/
def pyTitleAux : Bool → List Char → List Char
  | _, [] => []
  | prevAlpha, c :: rest =>
    if c.isAlpha then
      (if prevAlpha then c.toLower else c.toUpper) :: pyTitleAux true rest
    else c :: pyTitleAux false rest

/-- Embeds str.title(). -/
def pyTitle (s : String) : String :=
  String.mk (pyTitleAux false s.data)

/-! ## Data model (vp_generator/models.py) -/
/-- Embeds models.TripRequest. -/
structure TripRequest where
  nationality : String
  residence_country : String
  departure_city : String
  destination_countries : List String
  primary_destination_country : String
  start_date : String
  end_date : String
  purpose : String
  budget_band : String := "medium"
  travellers_count : Int := 1
  traveller_names : List String := []
  notes : Option String := none
  trip_theme : Option String := none
deriving DecidableEq, Repr

/-- Embeds models.DayPlan, with the date held as a parsed calendar
date (the ISO string representation is a bijection on valid dates). -/
structure DayPlan where
  date : Date
  city : String
  summary : String
  stay_options : List String := []
  activities : List String := []
  transport : Option String := none
deriving DecidableEq, Repr

/-- Embeds models.FlightOption. -/
structure FlightOption where
  label : String
  from_airport : String
  to_airport : String
  depart_datetime : String
  arrive_datetime : String
  price_in_inr : ℚ
  airline : String
  booking_link : String
deriving DecidableEq, Repr

/-- Embeds models.HotelOption. -/
structure HotelOption where
  name : String
  city : String
  check_in : String
  check_out : String
  approx_price_per_night_in_inr : ℚ
  tier : String
  address : String
  booking_link : String
deriving DecidableEq, Repr

/-- Embeds models.InsuranceOption. -/
structure InsuranceOption where
  provider : String
  plan_name : String
  coverage_amount_eur : Int
  price_in_inr : ℚ
  highlights : List String
  purchase_link : String
deriving DecidableEq, Repr

/-- Embeds models.VisaRules. -/
structure VisaRules where
  visa_type : String
  min_insurance_coverage_eur : Int
  typical_required_docs : List String
  notes : Option String := none
deriving DecidableEq, Repr

/-- Embeds models.VisaPackDocuments. -/
structure VisaPackDocuments where
  cover_letter : String
  travel_itinerary_text : String
  flights_summary : String
  hotels_summary : String
  checklist : String
deriving DecidableEq, Repr

/-- Embeds models.TripPlan. -/
structure TripPlan where
  request : TripRequest
  rules : Option VisaRules := none
  itinerary : List DayPlan := []
  flights : List FlightOption := []
  hotels : List HotelOption := []
  insurance_options : List InsuranceOption := []
  documents : Option VisaPackDocuments := none
  validation_issues : List String := []
  budget_per_person_min_inr : Option Int := none
  budget_per_person_max_inr : Option Int := none
deriving DecidableEq, Repr

/-! ## Budget band (vp_generator/visa_pack.py, apply_budget_band_to_plan) -/
/-- Embeds apply_budget_band_to_plan as a functional update of the plan. -/
def apply_budget_band_to_plan (trip_plan : TripPlan) : TripPlan :=
  let band := pyLower (pyOrStr trip_plan.request.budget_band "medium")
  let minmax : Int × Option Int :=
    if band = "low" then (100000, some 150000)
    else if band = "medium" then (150000, some 300000)
    else if band = "high" then (300000, none)
    else (150000, some 300000)
  { trip_plan with
      budget_per_person_min_inr := some minmax.1
      budget_per_person_max_inr := minmax.2 }

/-! ## Visa rules (vp_generator/visa_pack.py, apply_rules_agent) -/
/-- Schengen country set used by apply_rules_agent. -/
def schengen_countries : List String :=
  ["austria", "belgium", "bulgaria", "croatia", "czechia", "denmark", "estonia",
   "finland", "france", "germany", "greece", "hungary", "iceland", "italy",
   "latvia", "liechtenstein", "lithuania", "luxembourg", "malta", "netherlands",
   "norway", "poland", "portugal", "romania", "slovakia", "slovenia", "spain",
   "sweden", "switzerland"]

/-- Embeds apply_rules_agent: Schengen classification by destination set. -/
def apply_rules_agent (trip_request : TripRequest) : VisaRules :=
  if trip_request.destination_countries.any
      (fun c => schengen_countries.contains (pyLower c)) then
    { visa_type := "Schengen Short-Stay (Type C)"
      min_insurance_coverage_eur := 30000
      typical_required_docs :=
        ["Completed & signed visa application form",
         "Passport with required validity and blank pages",
         "Recent passport-sized photographs",
         "Travel medical insurance (min €30,000 coverage)",
         "Round-trip flight reservation",
         "Hotel reservation(s) or proof of accommodation",
         "Proof of sufficient funds (bank statements, salary slips, etc.)",
         "Proof of employment / business / studies",
         "Travel itinerary and cover letter explaining trip purpose"]
      notes := some "Rules vary by consulate; user must confirm with their specific VFS/consulate." }
  else
    { visa_type := "Generic Tourist Visa"
      min_insurance_coverage_eur := 30000
      typical_required_docs :=
        ["Visa application form", "Passport", "Photographs", "Travel insurance",
         "Travel bookings", "Proof of funds", "Cover letter"]
      notes := some "Destination not recognized as Schengen in this prototype." }

/-! ## External environment

The collaborators of section 6 of the spec (HTTP providers, the
text-generation service, environment variables) are parameters of the
pipeline: each field of Env is the outcome of one thin I/O wrapper for
the run being modelled.  Functions of the repository that consist of
one guarded HTTP try-block returning a parsed list or the empty list on
any exception (such as _fetch_amadeus, hotelbeds / SerpApi / Booking.com
searches) appear as one outcome field. -/
/-- Raw day item returned by the itinerary generation model: a JSON
object with optional date, city, summary fields.  Date strings are
identified with parsed dates; strings that parse to no calendar date
behave exactly like any tuple outside the requested set. -/
structure RawIt where
  date : Option Date := none
  city : Option String := none
  summary : Option String := none
deriving Repr

/-- Offer row of the Aviasales price payload. -/
structure AviaOffer where
  price : Option JVal := none
  departure_at : Option String := none
  return_at : Option String := none
  airline : Option String := none
deriving DecidableEq, Repr

/-- Embeds config.Settings. -/
structure Settings where
  openai_api_key : String
  openai_model : String := "gpt-4.1-mini"
  max_output_tokens : Nat := 800
  amadeus_api_key : Option String := none
  amadeus_api_secret : Option String := none
  travelpayouts_token : Option String := none
  travelpayouts_marker : Option String := none
  aviasales_partner_id : Option String := none
  rapidapi_key : Option String := none
  rapidapi_host : Option String := none
  serpapi_key : Option String := none
  hotelbeds_api_key : Option String := none
  hotelbeds_api_secret : Option String := none
deriving DecidableEq, Repr

/-- External world of one pipeline run: environment variables plus the
outcome of every external call. -/
structure Env where
  openai_api_key : Option String := none
  amadeus_api_key : Option String := none
  amadeus_api_secret : Option String := none
  travelpayouts_token : Option String := none
  travelpayouts_marker : Option String := none
  aviasales_partner_id : Option String := none
  rapidapi_key : Option String := none
  rapidapi_host : Option String := none
  serpapi_key : Option String := none
  hotelbeds_api_key : Option String := none
  hotelbeds_api_secret : Option String := none
  segGen : List Date → Option (List RawIt) := fun _ => none
  llmResp : Option String := none
  aviaHttp : Option (List (List AviaOffer)) := none
  amadeusToken : Option String := none
  amadeusOptions : List FlightOption := []
  hotelbedsHotels : Except PyErr (List HotelOption) := .ok []
  serpHotels : Except PyErr (List HotelOption) := .ok []
  bookingHotels : Except PyErr (List HotelOption) := .ok []

/-- Embeds get_settings: raises ValueError without an OpenAI key. -/
def get_settings (env : Env) : Except PyErr Settings :=
  match env.openai_api_key with
  | none => .error .valueError
  | some k =>
    if k = "" then .error .valueError
    else .ok
      { openai_api_key := k
        amadeus_api_key := env.amadeus_api_key
        amadeus_api_secret := env.amadeus_api_secret
        travelpayouts_token := env.travelpayouts_token
        travelpayouts_marker := env.travelpayouts_marker
        aviasales_partner_id := env.aviasales_partner_id
        rapidapi_key := env.rapidapi_key
        rapidapi_host := env.rapidapi_host
        serpapi_key := env.serpapi_key
        hotelbeds_api_key := env.hotelbeds_api_key
        hotelbeds_api_secret := env.hotelbeds_api_secret }

/-- Embeds llm_call: client construction needs the settings, then the
text-generation outcome arrives stripped; a service failure raises. -/
def llm_call (env : Env) : Except PyErr String := do
  let _ ← get_settings env
  match env.llmResp with
  | some s => pure (pyStrip s)
  | none => .error .runtimeError

/-- Python truthiness of an optional string (None and empty falsy). -/
def falsyOpt (o : Option String) : Bool :=
  match o with
  | none => true
  | some s => s = ""

/-- Indexing the head of a list, raising IndexError when empty as the
subscript [0] does. -/
def listHead {α : Type} (l : List α) : Except PyErr α :=
  match l with
  | [] => .error .indexError
  | x :: _ => .ok x

/-! ## Flight recommendations (vp_generator/services/flights.py) -/
/-- Embeds the PRIMARY_AIRPORTS table. -/
def primary_airports : List (String × String) :=
  [("france", "CDG"), ("germany", "FRA"), ("italy", "FCO"), ("spain", "MAD"),
   ("netherlands", "AMS"), ("belgium", "BRU"), ("switzerland", "ZRH"),
   ("austria", "VIE"), ("portugal", "LIS"), ("greece", "ATH"), ("czechia", "PRG"),
   ("poland", "WAW"), ("hungary", "BUD"), ("sweden", "ARN"), ("finland", "HEL"),
   ("denmark", "CPH"), ("norway", "OSL"), ("croatia", "ZAG"), ("bulgaria", "SOF"),
   ("romania", "OTP"), ("slovakia", "BTS"), ("slovenia", "LJU"), ("estonia", "TLL"),
   ("latvia", "RIX"), ("lithuania", "VNO"), ("luxembourg", "LUX"), ("malta", "MLA"),
   ("iceland", "KEF"), ("liechtenstein", "ZRH")]

/-- Leftmost match of the IATA pattern \(([A-Za-z]{3})\). -/
def findIata : List Char → Option (List Char)
  | [] => none
  | c :: rest =>
    match c :: rest with
    | '(' :: a :: b :: d :: ')' :: _ =>
      if a.isAlpha ∧ b.isAlpha ∧ d.isAlpha then some [a, b, d] else findIata rest
    | _ => findIata rest

/-- Embeds _extract_iata: bracketed IATA code, else the first three
characters of the first whitespace token upper-cased; an all-whitespace
city raises IndexError. -/
def extract_iata (value : String) : Except PyErr String :=
  if value = "" then .ok "DEL"
  else
    match findIata value.data with
    | some code => .ok (pyUpper (String.mk code))
    | none =>
      match pySplitWs (pyStrip value) with
      | [] => .error .indexError
      | w :: _ => .ok (pyUpper (String.mk (w.data.take 3)))

/-- Embeds float(str) on the strings the providers hand over: optional
surrounding whitespace and sign, then digits with at most one dot (the
grammar the pipeline can actually meet). -/
def pyFloatStr (s : String) : Option ℚ :=
  let cs := (s.data.dropWhile pySpace).reverse.dropWhile pySpace |>.reverse
  match cs with
  | '-' :: rest => (LGfloat rest).map Neg.neg
  | '+' :: rest => LGfloat rest
  | _ => LGfloat cs
where LGfloat (cs : List Char) : Option ℚ :=
  if cs.isEmpty then none
  else if cs.all (fun c => c.isDigit || c = '.') then
    if (cs.filter (fun c => c = '.')).length = 0 then
      some ((cs.foldl (fun a c => a * 10 + digitVal c) 0 : Nat) : ℚ)
    else if (cs.filter (fun c => c = '.')).length = 1 ∧ cs.any Char.isDigit then
      let intPart := cs.takeWhile (fun c => c ≠ '.')
      let fracPart := (cs.dropWhile (fun c => c ≠ '.')).tail
      some (((intPart.foldl (fun a c => a * 10 + digitVal c) 0 : Nat) : ℚ)
        + ((fracPart.foldl (fun a c => a * 10 + digitVal c) 0 : Nat) : ℚ)
          / (10 : ℚ) ^ fracPart.length)
    else none
  else none

/-- Embeds float() on a JSON value. -/
def pyFloatJ (v : JVal) : Except PyErr ℚ :=
  match v with
  | .jnum q => .ok q
  | .jstr s =>
    match pyFloatStr s with
    | some q => .ok q
    | none => .error .valueError

/-- Drops every hyphen, as .replace("-", "") on a date string. -/
def stripHyphens (s : String) : String :=
  String.mk (s.data.filter (fun c => c ≠ '-'))

/-- Embeds _fetch_aviasales: nothing without credentials, nothing on a
failed call, otherwise one inbound option per offer plus an outbound
option when a return date is present, capped at six. -/
def fetch_aviasales (token marker : Option String) (origin destination : String)
    (http : Option (List (List AviaOffer))) : Except PyErr (List FlightOption) := do
  if falsyOpt token || falsyOpt marker then
    pure []
  else
    match http with
    | none => pure []
    | some data => do
      let offers := data.flatten
      let results ← offers.foldlM (fun (acc : List FlightOption) offer => do
        let price ← pyFloatJ (offer.price.getD (.jnum 0))
        let depart := offer.departure_at.getD ""
        let arrive := offer.return_at.getD ""
        let airline := offer.airline.getD "Aviasales"
        let booking_suffix := stripHyphens ((pySplit1 'T' depart).headD "")
        let acc := acc ++
          [{ label := "Inbound Option"
             airline := airline
             from_airport := origin
             to_airport := destination
             depart_datetime := depart
             arrive_datetime := depart
             price_in_inr := price
             booking_link := "https://www.aviasales.com/search/" ++ origin ++ destination ++ booking_suffix }]
        if arrive ≠ "" then
          let return_suffix := stripHyphens ((pySplit1 'T' arrive).headD "")
          pure (acc ++
            [{ label := "Outbound Option"
               airline := airline
               from_airport := destination
               to_airport := origin
               depart_datetime := arrive
               arrive_datetime := arrive
               price_in_inr := price
               booking_link := "https://www.aviasales.com/search/" ++ destination ++ origin ++ return_suffix }])
        else
          pure acc) []
      pure (results.take 6)

/-- Embeds get_amadeus_token: None without credentials, else the token
call outcome (the process-wide cache is inside the wrapper boundary). -/
def get_amadeus_token (settings : Settings) (env : Env) : Option String :=
  if falsyOpt settings.amadeus_api_key || falsyOpt settings.amadeus_api_secret then none
  else env.amadeusToken

/-- Base fallback flight price per budget band. -/
def base_price_band (band : String) : ℚ :=
  let b := pyLower (pyOrStr band "medium")
  if b = "low" then 55000
  else if b = "medium" then 70000
  else if b = "high" then 95000
  else 70000

/-- Embeds _fallback_recommendations: exactly two synthesized flights,
one inbound and one outbound, priced from the budget-band table. -/
def fallback_recommendations (request : TripRequest) : List FlightOption :=
  let base_price := base_price_band request.budget_band
  let dest_airport :=
    (primary_airports.lookup (pyLower request.primary_destination_country)).getD "CDG"
  [{ label := "Inbound Option"
     airline := "Sample Airline"
     from_airport := request.departure_city
     to_airport := dest_airport
     depart_datetime := request.start_date ++ "T09:00"
     arrive_datetime := request.start_date ++ "T16:00"
     price_in_inr := base_price
     booking_link := "https://www.amadeus.com" },
   { label := "Outbound Option"
     airline := "Sample Airline"
     from_airport := dest_airport
     to_airport := request.departure_city
     depart_datetime := request.end_date ++ "T10:00"
     arrive_datetime := request.end_date ++ "T18:00"
     price_in_inr := base_price
     booking_link := "https://www.amadeus.com" }]

/-- Destination airport of recommend_flights: the primary country, or
the first destination country with the CDG default (indexing the first
destination raises on an empty list). -/
def resolve_dest_airport (request : TripRequest) : Except PyErr String :=
  match primary_airports.lookup (pyLower request.primary_destination_country) with
  | some a => .ok a
  | none => do
    let d0 ← listHead request.destination_countries
    pure ((primary_airports.lookup (pyLower d0)).getD "CDG")

/-- Embeds recommend_flights: Aviasales first, then Amadeus, then the
synthesized fallback pair. -/
def recommend_flights (env : Env) (request : TripRequest) :
    Except PyErr (List FlightOption) := do
  let settings ← get_settings env
  let origin ← extract_iata request.departure_city
  let destination ← resolve_dest_airport request
  let avia_options ← fetch_aviasales settings.travelpayouts_token
    settings.aviasales_partner_id origin destination env.aviaHttp
  if avia_options ≠ [] then
    pure avia_options
  else
    let token := get_amadeus_token settings env
    let amadeus_options :=
      if falsyOpt token then [] else env.amadeusOptions
    if amadeus_options ≠ [] then
      pure amadeus_options
    else
      pure (fallback_recommendations request)

/-! ## Hotel recommendations (vp_generator/services/hotels.py) -/
/-- Embeds _dedupe_cities: strip, drop empties, case-insensitive
first-wins dedup. -/
def dedupe_cities (cities : List String) : List String :=
  (cities.foldl (fun (st : List String × List String) city =>
    let normalized := pyStrip city
    if normalized = "" then st
    else
      let key := pyLower normalized
      if st.2.contains key then st
      else (st.1 ++ [normalized], st.2 ++ [key])) ([], [])).1

/-- Embeds _fallback_hotels: one synthesized central hotel per city. -/
def fallback_hotels (request : TripRequest) (cities : List String) : List HotelOption :=
  cities.map (fun city =>
    { name := city ++ " Central Hotel"
      city := city
      check_in := request.start_date
      check_out := request.end_date
      approx_price_per_night_in_inr := 10000
      tier := "central"
      address := "City center, " ++ city
      booking_link := "https://www.booking.com" })

/-- Embeds recommend_hotels: Hotelbeds, SerpApi, Booking.com in order,
first non-empty wins, else the synthesized fallback. -/
def recommend_hotels (env : Env) (request : TripRequest) (cities : List String) :
    Except PyErr (List HotelOption) := do
  let settings ← get_settings env
  let unique0 := dedupe_cities cities
  let unique_cities :=
    if unique0.isEmpty then
      match request.destination_countries with
      | d0 :: _ => [d0]
      | [] => unique0
    else unique0
  let hotelbeds_hotels ←
    if !(falsyOpt settings.hotelbeds_api_key) ∧ !(falsyOpt settings.hotelbeds_api_secret) then
      env.hotelbedsHotels
    else pure []
  if hotelbeds_hotels ≠ [] then
    pure hotelbeds_hotels
  else
    let serp_hotels ←
      if !(falsyOpt settings.serpapi_key) then env.serpHotels else pure []
    if serp_hotels ≠ [] then
      pure serp_hotels
    else
      let booking_hotels ←
        if !(falsyOpt settings.rapidapi_key) then env.bookingHotels else pure []
      if booking_hotels ≠ [] then
        pure booking_hotels
      else
        pure (fallback_hotels request unique_cities)

/-! ## Insurance recommendations (vp_generator/services/insurance.py) -/
/-- Base insurance price per budget band. -/
def insurance_base_price (band : String) : ℚ :=
  let b := pyLower (pyOrStr band "medium")
  if b = "low" then 2000
  else if b = "medium" then 3500
  else if b = "high" then 5500
  else 3500

/-- Embeds recommend_insurance: two fixed plans priced from the band. -/
def recommend_insurance (request : TripRequest) : List InsuranceOption :=
  let base_price := insurance_base_price request.budget_band
  [{ provider := "SafeVoyage"
     plan_name := "Essential Plan"
     coverage_amount_eur := 30000
     price_in_inr := base_price
     highlights := ["Covers medical emergencies", "Includes repatriation"]
     purchase_link := "https://insurance.example.com/safevoyage" },
   { provider := "WanderShield"
     plan_name := "Plus Plan"
     coverage_amount_eur := 50000
     price_in_inr := ((pyTrunc (base_price * (7 / 5 : ℚ)) : Int) : ℚ)
     highlights := ["Lost baggage coverage", "Trip interruption"]
     purchase_link := "https://insurance.example.com/wandershield" }]

/-! ## Itinerary planning (vp_generator/visa_pack.py)

The text-generation call of generate_itinerary_segment_structured is an
external collaborator; Env.segGen yields its raw days list, or none
where the call or its JSON handling raised.  The post-processing that
follows the call is embedded below; the prompt string that feeds the
external model is not, being invisible to every observable output. -/
/-- Embeds the string version of make_date_list: parse both endpoints
(ValueError on malformed input), then walk the inclusive range. -/
def make_date_list_str (start_date end_date : String) : Except PyErr (List Date) :=
  match parse_date start_date with
  | none => .error .valueError
  | some ds =>
    match parse_date end_date with
    | none => .error .valueError
    | some de => .ok (make_date_list ds de)

/-- First loop of generate_itinerary_segment_structured over the raw
generator days: defaults, summary truncation, and the positional repair
of dates outside the segment.  The dict default expressions evaluate
the first destination eagerly, so an empty destination list raises. -/
def genSegLoop1 (dests : List String) (segment_dates : List Date) :
    List RawIt → List DayPlan → Except PyErr (List DayPlan)
  | [], day_plans => .ok day_plans
  | item :: rest, day_plans => do
    let dflt_city ← listHead dests
    let city := item.city.getD dflt_city
    let summary := truncate_summary (item.summary.getD "Sightseeing and local exploration.")
    let date_str0 := item.date
    let date_str1 :=
      if (match date_str0 with
          | some d => !segment_dates.contains d
          | none => true) then
        match segment_dates.find? (fun d => !(day_plans.map DayPlan.date).contains d) with
        | some d => some d
        | none => date_str0
      else date_str0
    let date_str ← (match date_str1 with
      | none => listHead segment_dates
      | some d => pure d)
    genSegLoop1 dests segment_dates rest
      (day_plans ++ [{ date := date_str, city := city, summary := summary }])

/-- Second loop of generate_itinerary_segment_structured: exactly one
entry per segment date, last generated entry with that date winning
(dict comprehension semantics), generic filler otherwise. -/
def genSegLoop2 (dests : List String) (day_plans : List DayPlan) :
    List Date → Except PyErr (List DayPlan)
  | [] => .ok []
  | d :: rest => do
    let dflt_city ← listHead dests
    let dflt : DayPlan :=
      { date := d, city := dflt_city, summary := "Sightseeing and local exploration." }
    let entry :=
      match day_plans.reverse.find? (fun dp => dp.date = d) with
      | some dp => dp
      | none => dflt
    let tail ← genSegLoop2 dests day_plans rest
    pure (entry :: tail)

/-- Embeds the post-processing of generate_itinerary_segment_structured. -/
def genSegProcess (dests : List String) (segment_dates : List Date)
    (raw_days : List RawIt) : Except PyErr (List DayPlan) := do
  let day_plans ← genSegLoop1 dests segment_dates raw_days []
  genSegLoop2 dests day_plans segment_dates

/-- Filler day used by both fallback paths of plan_itinerary_agent. -/
def fillerDays (dests : List String) : List Date → Except PyErr (List DayPlan)
  | [] => .ok []
  | d :: rest => do
    let c ← listHead dests
    let tail ← fillerDays dests rest
    pure (({ date := d, city := c, summary := "Sightseeing and local exploration." } : DayPlan) :: tail)

/-- Final reconciliation loop of plan_itinerary_agent: one entry per
requested date, first unused match wins, filler otherwise. -/
def finalLoopGo (dests : List String) (all_day_plans : List DayPlan)
    (used : List Date) : List Date → Except PyErr (List DayPlan)
  | [] => .ok []
  | d :: rest =>
    match all_day_plans.filter (fun dp => decide (dp.date = d) && !used.contains dp.date) with
    | dp :: _ => do
      let tail ← finalLoopGo dests all_day_plans (used ++ [d]) rest
      pure (dp :: tail)
    | [] => do
      let c ← listHead dests
      let tail ← finalLoopGo dests all_day_plans used rest
      pure ({ date := d, city := c, summary := "Sightseeing and local exploration." } :: tail)

/-- Segment step of plan_itinerary_agent: the generator output when it
succeeds, the per-date filler on any exception from the generation
call or its post-processing. -/
def planChunkStep (env : Env) (dests : List String) (acc : List DayPlan)
    (segment_dates : List Date) : Except PyErr (List DayPlan) := do
  let seg ← (match env.segGen segment_dates with
    | some raw =>
      (match genSegProcess dests segment_dates raw with
       | .ok plans => pure plans
       | .error _ => fillerDays dests segment_dates)
    | none => fillerDays dests segment_dates)
  pure (acc ++ seg)

/-- Embeds plan_itinerary_agent: the requested dates in segments of at
most 8, the generator output (or a filler on any exception) per
segment, then the final reconciliation pass. -/
def plan_itinerary_agent (env : Env) (trip_plan : TripPlan) : Except PyErr TripPlan := do
  let req := trip_plan.request
  let all_dates ← make_date_list_str req.start_date req.end_date
  let chunks := chunksOf 8 all_dates
  let all_day_plans ← chunks.foldlM (planChunkStep env req.destination_countries) []
  let final ← finalLoopGo req.destination_countries all_day_plans [] all_dates
  pure { trip_plan with itinerary := final }

/-! ## Enrichment (vp_generator/visa_pack.py) -/
/-- Embeds format_hotel_option. -/
def format_hotel_option (hotel : HotelOption) : String :=
  hotel.name ++ " (₹" ++ commaFmt (pyTrunc hotel.approx_price_per_night_in_inr)
    ++ "/night, " ++ pyTitle hotel.tier ++ ", link: " ++ hotel.booking_link ++ ")"

/-- Embeds themed_activity_suggestions. -/
def themed_activity_suggestions (city theme : String) : List String :=
  let base_city := if city = "" then "the city" else city
  if strIn "gastronomic" theme || strIn "food" theme then
    ["Guided food tour sampling bakeries and markets around " ++ base_city ++ ".",
     "Reserve a chef-led tasting menu or cooking class highlighting regional dishes."]
  else if strIn "grand" theme || strIn "history" theme || strIn "culture" theme then
    ["Morning museum and landmark circuit through " ++ base_city ++ " with guided commentary.",
     "Evening heritage walk plus classical performance or gallery visit."]
  else if theme ≠ "" then
    ["Activities tailored to \x27" ++ theme ++ "\x27 in " ++ base_city
      ++ ": curated tours, workshops, or local meetups.",
     "Free time to pursue personal interests connected to \x27" ++ theme ++ "\x27."]
  else
    ["Explore iconic sights and neighborhoods around " ++ base_city ++ " at a comfortable pace.",
     "Enjoy local cafes, markets, and a sunset viewpoint or river cruise."]

/-- Embeds build_transport_suggestion. -/
def build_transport_suggestion (prev_city next_city : String) : String :=
  if prev_city = next_city then "Local transit / walking day."
  else "Travel from " ++ prev_city ++ " to " ++ next_city
    ++ " via train or short intra-Europe flight."

/-- Grouping loop of enrich_itinerary: setdefault-append into an
association list keyed by hotel city, first-seen order. -/
def addToCity (m : List (String × List HotelOption)) (h : HotelOption) :
    List (String × List HotelOption) :=
  match m with
  | [] => [(h.city, [h])]
  | (c, l) :: rest =>
    if c = h.city then (c, l ++ [h]) :: rest else (c, l) :: addToCity rest h

/-- Builds hotels_by_city. -/
def buildHotelsByCity (hotels : List HotelOption) : List (String × List HotelOption) :=
  hotels.foldl addToCity []

/-- Map with input position, mirroring enumerate(). -/
def mapIdxFrom {α β : Type} (f : Nat → α → β) : Nat → List α → List β
  | _, [] => []
  | i, x :: rest => f i x :: mapIdxFrom f (i + 1) rest

/-- Arrival note of the first itinerary day. -/
def arrivalNote (inbound : FlightOption) : String :=
  "Arrive via " ++ inbound.airline ++ " flight from " ++ inbound.from_airport
    ++ ", departing " ++ format_friendly_datetime inbound.depart_datetime
    ++ " and landing " ++ format_friendly_datetime inbound.arrive_datetime ++ "."

/-- Departure note of the last itinerary day. -/
def departureNote (outbound : FlightOption) : String :=
  "Depart via " ++ outbound.airline ++ " flight from " ++ outbound.to_airport
    ++ " to " ++ outbound.from_airport ++ " at "
    ++ format_friendly_datetime outbound.depart_datetime ++ "."

/-- Stay options attached to a day: up to two formatted entries from
the hotels of the day city, falling back to the first three plan-wide
hotels when the city has none. -/
def stayOptionsFor (hotels : List HotelOption)
    (hbc : List (String × List HotelOption)) (day_city : String) : List String :=
  let city_hotels0 := (hbc.lookup day_city).getD []
  let city_hotels :=
    if city_hotels0.isEmpty ∧ !hotels.isEmpty then hotels.take 3 else city_hotels0
  (city_hotels.take 2).map format_hotel_option

/-- Per-day transformation of enrich_itinerary, in source order: stay
options and themed activities, then first-day arrival, interior or
first-day transport, then last-day departure. -/
def enrichDay (plan : TripPlan) (hbc : List (String × List HotelOption))
    (theme : String) (n : Nat) (idx : Nat) (day : DayPlan) : DayPlan :=
  let flights := plan.flights
  let day1 := { day with
    stay_options := stayOptionsFor plan.hotels hbc day.city
    activities := themed_activity_suggestions day.city theme }
  let day2 :=
    if idx = 0 ∧ !flights.isEmpty then
      match flights with
      | inbound :: _ =>
        { day1 with
            activities := arrivalNote inbound :: day1.activities
            transport := some ("Arrival flight into " ++ inbound.to_airport ++ ".") }
      | [] => day1
    else if 0 < idx then
      let prev_city := ((plan.itinerary.get? (idx - 1)).map DayPlan.city).getD ""
      { day1 with transport := some (build_transport_suggestion prev_city day.city) }
    else
      { day1 with transport := some "Local transit / walking" }
  if idx = n - 1 ∧ !flights.isEmpty then
    match flights.getLast? with
    | some outbound =>
      { day2 with
          activities := day2.activities ++ [departureNote outbound]
          transport := some ("Departure flight from " ++ outbound.to_airport ++ ".") }
    | none => day2
  else day2

/-- Embeds enrich_itinerary. -/
def enrich_itinerary (trip_plan : TripPlan) : TripPlan :=
  if trip_plan.itinerary.isEmpty then trip_plan
  else
    let hbc := buildHotelsByCity trip_plan.hotels
    let theme := pyLower (trip_plan.request.trip_theme.getD "")
    let n := trip_plan.itinerary.length
    { trip_plan with
        itinerary := mapIdxFrom (enrichDay trip_plan hbc theme n) 0 trip_plan.itinerary }

/-- Embeds validate_trip_agent. -/
def validate_trip_agent (trip_plan : TripPlan) : TripPlan :=
  { trip_plan with validation_issues :=
      (if trip_plan.itinerary.isEmpty then ["No itinerary generated."] else [])
      ++ (if trip_plan.flights.isEmpty then ["No flight options generated."] else [])
      ++ (if trip_plan.hotels.isEmpty then ["No hotel options generated."] else []) }

/-! ## Document assembly (vp_generator/visa_pack.py) -/
/-- Pipe characters are replaced before a value enters a table row. -/
def pipeToSlash (s : String) : String :=
  String.mk (s.data.map (fun c => if c = '|' then '/' else c))

/-- One row of the itinerary table. -/
def itineraryRow (day : DayPlan) : String :=
  let stay_text :=
    if day.stay_options ≠ [] then String.intercalate "<br>" day.stay_options
    else "See recommended stays"
  let activities_text :=
    if day.activities ≠ [] then String.intercalate "<br>" day.activities
    else day.summary
  let transport_text :=
    match day.transport with
    | some t => if t = "" then "Local transit / walking" else t
    | none => "Local transit / walking"
  "| " ++ format_friendly_date_of_date day.date ++ " | " ++ pipeToSlash day.city
    ++ " | " ++ pipeToSlash stay_text ++ " | " ++ pipeToSlash activities_text
    ++ " | " ++ pipeToSlash transport_text ++ " |"

/-- Summary line of one flight option. -/
def flightLine (f : FlightOption) : String :=
  f.label ++ ": " ++ f.from_airport ++ " → " ++ f.to_airport ++ ", Depart: "
    ++ format_friendly_datetime f.depart_datetime ++ ", Arrive: "
    ++ format_friendly_datetime f.arrive_datetime ++ ", Approx: ₹"
    ++ toString (pyTrunc f.price_in_inr) ++ " (link: " ++ f.booking_link ++ ")"

/-- Summary line of one hotel option. -/
def hotelLine (h : HotelOption) : String :=
  h.name ++ " (" ++ h.city ++ ") – " ++ format_friendly_date h.check_in ++ " to "
    ++ format_friendly_date h.check_out ++ ", Approx: ₹"
    ++ toString (pyTrunc h.approx_price_per_night_in_inr) ++ "/night, Address: "
    ++ h.address ++ ", link: " ++ h.booking_link

/-- Embeds generate_documents_agent: the cover letter arrives from the
text-generation service (its prompt is external input assembly and is
not modelled), the remaining documents are assembled locally.  The
prompt evaluation indexes the first destination country when the
primary destination is empty. -/
def generate_documents_agent (env : Env) (trip_plan : TripPlan) :
    Except PyErr TripPlan := do
  let req := trip_plan.request
  let _primary ←
    (if req.primary_destination_country ≠ "" then pure req.primary_destination_country
     else listHead req.destination_countries)
  let cover_letter ← llm_call env
  let table_lines :=
    ["| Date | City | Stay Options | Activities & Notes | Transport |",
     "| --- | --- | --- | --- | --- |"] ++ trip_plan.itinerary.map itineraryRow
  let travel_itinerary_text := String.intercalate "\n" table_lines
  let flights_lines := trip_plan.flights.map flightLine
  let hotels_lines := trip_plan.hotels.map hotelLine
  let checklist_lines := ["Core Required Documents:"] ++
    (match trip_plan.rules with
     | some rules => rules.typical_required_docs.map (fun item => "- [ ] " ++ item)
     | none => ["- [ ] Check latest requirements with consulate/VFS."])
  pure { trip_plan with documents := some (
    { cover_letter := pyStrip cover_letter
      travel_itinerary_text := travel_itinerary_text
      flights_summary := String.intercalate "\n" flights_lines
      hotels_summary := String.intercalate "\n" hotels_lines
      checklist := String.intercalate "\n" checklist_lines } : VisaPackDocuments) }

/-! ## Batch pipeline (vp_generator/visa_pack.py, generate_visa_pack) -/
/-- Embeds recommend_flights_agent. -/
def recommend_flights_agent (env : Env) (trip_plan : TripPlan) :
    Except PyErr TripPlan := do
  let fl ← recommend_flights env trip_plan.request
  pure { trip_plan with flights := fl }

/-- Embeds recommend_hotels_agent: itinerary cities deduplicated in
order, or the first destination country when the itinerary is empty. -/
def recommend_hotels_agent (env : Env) (trip_plan : TripPlan) :
    Except PyErr TripPlan := do
  let cities ←
    (if !trip_plan.itinerary.isEmpty then
      pure (trip_plan.itinerary.foldl (fun (acc : List String) day =>
        if acc.contains day.city then acc else acc ++ [day.city]) [])
    else do
      let c ← listHead trip_plan.request.destination_countries
      pure [c])
  let hs ← recommend_hotels env trip_plan.request cities
  pure { trip_plan with hotels := hs }

/-- Embeds recommend_insurance_agent. -/
def recommend_insurance_agent (trip_plan : TripPlan) : TripPlan :=
  { trip_plan with insurance_options := recommend_insurance trip_plan.request }

/-- Embeds generate_visa_pack: the full batch pipeline. -/
def generate_visa_pack (env : Env) (trip_request : TripRequest) :
    Except PyErr TripPlan := do
  let p0 : TripPlan := { request := trip_request }
  let p1 := apply_budget_band_to_plan p0
  let p2 := { p1 with rules := some (apply_rules_agent trip_request) }
  let p3 ← plan_itinerary_agent env p2
  let p4 ← recommend_flights_agent env p3
  let p5 ← recommend_hotels_agent env p4
  let p6 := recommend_insurance_agent p5
  let p7 := enrich_itinerary p6
  let p8 := validate_trip_agent p7
  generate_documents_agent env p8

end VP

namespace LG
open VP

/-! ## Destination dates (vp_generator/langgraph_agent.py) -/
/-- Destination entry of the interactive payload before dates are
attached (the check_in / check_out fields start as placeholders). -/
structure DestinationReq where
  country : String
  city : String
  nights : Nat
deriving DecidableEq, Repr

/-- Destination entry after _calculate_destination_dates attached its
check-in and check-out dates. -/
structure DestinationDated where
  country : String
  city : String
  nights : Nat
  check_in : Date
  check_out : Date
deriving DecidableEq, Repr

/-- Loop of _calculate_destination_dates: walk a cursor through the
destinations, attaching check-in = cursor and check-out = cursor +
nights, and accumulate total nights. -/
def calcGo (cursor : Date) : List DestinationReq → List DestinationDated × Nat
  | [] => ([], 0)
  | dest :: rest =>
    let check_in := cursor
    let check_out := addDays cursor dest.nights
    let (tail, tn) := calcGo check_out rest
    (⟨dest.country, dest.city, dest.nights, check_in, check_out⟩ :: tail,
      dest.nights + tn)

/-- Embeds _calculate_destination_dates: returns the dated destination
list, the trip end date (start plus total nights) and the total nights. -/
def calculate_destination_dates (start : Date) (dests : List DestinationReq) :
    List DestinationDated × Date × Nat :=
  ((calcGo start dests).1, addDays start (calcGo start dests).2, (calcGo start dests).2)

/-- Total nights of a destination list. -/
def nightsSum (l : List DestinationReq) : Nat :=
  (l.map (fun d => d.nights)).sum

/-! ## Free-text heuristics (vp_generator/langgraph_agent.py)

The regular expressions of the normalizer are embedded as explicit
character scanners with the same leftmost-match and greedy semantics.
Digits and word characters follow the ASCII reading (the repo only ever
feeds them strings built from its own queries and provider text). -/
/-- Word character for the \b boundary: letters, digits, underscore. -/
def wordChar (c : Char) : Bool :=
  c.isAlpha || c.isDigit || c = '_'

/-- Character class [\d.,] of the price pattern. -/
def priceClass (c : Char) : Bool :=
  c.isDigit || c = '.' || c = ','

/-- Numeric value of an ASCII digit string. -/
def natOfDigits (cs : List Char) : Nat :=
  cs.foldl (fun a c => a * 10 + VP.digitVal c) 0

/-- Embeds float() on a captured group made of digits, dots and commas
after the commas were stripped: at most one dot, at least one digit. -/
def pyFloatDigitsDots (cs : List Char) : Option ℚ :=
  if cs.isEmpty then none
  else if cs.all (fun c => c.isDigit || c = '.') then
    if (cs.filter (fun c => c = '.')).length = 0 then
      some (natOfDigits cs : ℚ)
    else if (cs.filter (fun c => c = '.')).length = 1 ∧ cs.any Char.isDigit then
      let intPart := cs.takeWhile (fun c => c ≠ '.')
      let fracPart := (cs.dropWhile (fun c => c ≠ '.')).tail
      some ((natOfDigits intPart : ℚ) + (natOfDigits fracPart : ℚ) / (10 : ℚ) ^ fracPart.length)
    else none
  else none

/-- Case-insensitive literal prefix test. -/
def ciPrefix (pat : List Char) (cs : List Char) : Bool :=
  match pat, cs with
  | [], _ => true
  | _ :: _, [] => false
  | p :: ps, c :: rest => c.toLower = p && ciPrefix ps rest

/-- Attempts the first price pattern at one position:
a currency marker, an optional whitespace, then 2 to 7 chars of [\d.,];
returns the captured group. -/
def matchCurrencyAt (cs : List Char) : Option (List Char) :=
  let rest? : Option (List Char) :=
    match cs with
    | [] => none
    | c :: rest =>
      if c = '€' then some rest
      else if ciPrefix ['e', 'u', 'r'] (c :: rest) then some ((c :: rest).drop 3)
      else if c = '$' then some rest
      else if ciPrefix ['u', 's', 'd'] (c :: rest) then some ((c :: rest).drop 3)
      else none
  match rest? with
  | none => none
  | some rest =>
    let rest2 :=
      match rest with
      | c :: t => if VP.pySpace c then t else rest
      | [] => rest
    let run := rest2.takeWhile priceClass
    if 2 ≤ run.length then some (run.take 7) else none

/-- Leftmost match of the first price pattern. -/
def findPriceMatch : List Char → Option (List Char)
  | [] => none
  | c :: rest =>
    match matchCurrencyAt (c :: rest) with
    | some g => some g
    | none => findPriceMatch rest

/-- After the digits of the second price pattern: optional whitespace,
then a currency code, then a word boundary; true when it matches. -/
def numCurTail (cs : List Char) : Bool :=
  let code : List Char → Bool := fun l =>
    (ciPrefix ['e', 'u', 'r'] l || ciPrefix ['u', 's', 'd'] l) &&
      (match l.drop 3 with
       | [] => true
       | c :: _ => !wordChar c)
  (match cs with
   | c :: t => if VP.pySpace c then code t else false
   | [] => false)
  || code cs

/-- Attempts the second price pattern at one position: 2 to 5 digits
(greedy), optional whitespace, a currency code, a trailing boundary. -/
def matchNumCurAt (cs : List Char) : Option (List Char) :=
  let tryLen : Nat → Option (List Char) := fun k =>
    let ds := cs.take k
    if ds.length = k ∧ ds.all Char.isDigit ∧ numCurTail (cs.drop k) then some ds else none
  (tryLen 5).orElse fun _ => (tryLen 4).orElse fun _ => (tryLen 3).orElse fun _ => tryLen 2

/-- Leftmost match of the second price pattern, tracking the previous
character for the leading word boundary. -/
def findNumCur : Option Char → List Char → Option (List Char)
  | _, [] => none
  | prev, c :: rest =>
    let boundary :=
      match prev with
      | none => true
      | some p => !wordChar p
    match (if boundary then matchNumCurAt (c :: rest) else none) with
    | some g => some g
    | none => findNumCur (some c) rest

/-- Embeds _extract_price: first currency-then-number match, else
number-then-currency-code match, else 0; a group that float() rejects
also gives 0. -/
def extract_price (text : String) : ℚ :=
  if text = "" then 0
  else
    match findPriceMatch text.data with
    | some g =>
      (match pyFloatDigitsDots (g.filter (fun c => c ≠ ',')) with
       | some q => q
       | none => 0)
    | none =>
      match findNumCur none text.data with
      | some g =>
        (match pyFloatDigitsDots g with
         | some q => q
         | none => 0)
      | none => 0

/-- Embeds _price_from_string: numbers pass through, strings go through
the price heuristic, anything else is 0. -/
def price_from_string (v : Option VP.JVal) : ℚ :=
  match v with
  | some (.jnum q) => q
  | some (.jstr s) => extract_price s
  | none => 0

/-- Tail of the rating pattern after the captured number: \s* then
either an optional hyphen or space before "star", or "/5". -/
def ratingTail (cs : List Char) : Bool :=
  let t := cs.dropWhile VP.pySpace
  ciPrefix ['s', 't', 'a', 'r'] t
  || (match t with
      | c :: t2 => (c = '-' || c = ' ') && ciPrefix ['s', 't', 'a', 'r'] t2
      | [] => false)
  || ciPrefix ['/', '5'] t

/-- Attempts the rating pattern at one position: \d+ (maximal run, the
only length the sequel can accept), an optional .\d fraction, then the
rating tail; returns the captured group. -/
def matchRatingAt (cs : List Char) : Option (List Char) :=
  let run := cs.takeWhile Char.isDigit
  if run.isEmpty then none
  else
    let after := cs.drop run.length
    let withFrac : Option (List Char) :=
      match after with
      | '.' :: d :: t => if d.isDigit then (if ratingTail t then some (run ++ ['.', d]) else none) else none
      | _ => none
    match withFrac with
    | some g => some g
    | none => if ratingTail after then some run else none

/-- Leftmost match of the rating pattern. -/
def findRating : List Char → Option (List Char)
  | [] => none
  | c :: rest =>
    match matchRatingAt (c :: rest) with
    | some g => some g
    | none => findRating rest

/-- Embeds _extract_rating: matched number rounded to nearest integer,
defaulting to 4 on no match or unparsable number. -/
def extract_rating (text : String) : Int :=
  match findRating text.data with
  | some g =>
    (match pyFloatDigitsDots g with
     | some v => VP.pyRound v
     | none => 4)
  | none => 4

/-- Embeds _board_type_from_text. -/
def board_type_from_text (text : String) : String :=
  let lowered := VP.pyLower text
  if VP.strIn "breakfast" lowered then "Bed & Breakfast"
  else if VP.strIn "half board" lowered then "Half Board"
  else if VP.strIn "full board" lowered then "Full Board"
  else "Room Only"

/-- Greedy backtracking over the digit-group length of the stop
pattern: longest length whose sequel \s*stop matches. -/
def stopTryK (cs run : List Char) : Nat → Option Nat
  | 0 => none
  | k + 1 =>
    if ciPrefix ['s', 't', 'o', 'p'] ((cs.drop (k + 1)).dropWhile VP.pySpace) then
      some (natOfDigits (run.take (k + 1)))
    else stopTryK cs run k

/-- Attempts the stop pattern (\d+)\s*stop at one position, trying the
greedy digit lengths downward. -/
def matchStopAt (cs : List Char) : Option Nat :=
  let run := cs.takeWhile Char.isDigit
  stopTryK cs run run.length

/-- Leftmost match of the stop pattern. -/
def findStop : List Char → Option Nat
  | [] => none
  | c :: rest =>
    match matchStopAt (c :: rest) with
    | some n => some n
    | none => findStop rest

/-- Embeds _infer_stop_count over the lowered text: nonstop markers give
0, an explicit stop count wins next, a layover mention gives 1, the
default is 1. -/
def infer_stop_count (text : String) : Nat :=
  let lowered := VP.pyLower text
  if VP.strIn "nonstop" lowered || VP.strIn "non-stop" lowered || VP.strIn "direct flight" lowered then 0
  else
    match findStop lowered.data with
    | some n => n
    | none => if VP.strIn "layover" lowered then 1 else 1

/-- Attempts the duration pattern (\d{1,2})\s*h at one position. -/
def matchDurationAt (cs : List Char) : Option Nat :=
  let tryK : Nat → Option Nat := fun k =>
    let ds := cs.take k
    if ds.length = k ∧ ds.all Char.isDigit
        ∧ ciPrefix ['h'] ((cs.drop k).dropWhile VP.pySpace) then
      some (natOfDigits ds)
    else none
  match tryK 2 with
  | some n => some n
  | none => tryK 1

/-- Leftmost match of the duration pattern. -/
def findDuration : List Char → Option Nat
  | [] => none
  | c :: rest =>
    match matchDurationAt (c :: rest) with
    | some n => some n
    | none => findDuration rest

/-- Embeds _infer_duration_hours over the lowered text. -/
def infer_duration_hours (text : String) : Option Nat :=
  findDuration (VP.pyLower text).data

/-! ## Ranking (langgraph_agent.py, candidates.sort over score tuples)

Python compares tuples lexicographically, a shorter tuple that is a
prefix of a longer one comparing as smaller; scores here mix 2-tuples
(structured path) and 3-tuples (free-text path), so the comparison key
is modelled as a rational list under that order.  list.sort is a stable
sort over this total preorder, and every stable sort over a total
preorder computes the same list, so an insertion sort embeds it
faithfully. -/
/-- Python lexicographic tuple less-or-equal on rational lists. -/
def tupLe : List ℚ → List ℚ → Bool
  | [], _ => true
  | _ :: _, [] => false
  | x :: xs, y :: ys => if x < y then true else if y < x then false else tupLe xs ys

/-- Inserts a scored candidate before the first equal-or-larger score,
which keeps earlier input before later input on score ties. -/
def insertCand {α : Type} (x : List ℚ × α) : List (List ℚ × α) → List (List ℚ × α)
  | [] => [x]
  | y :: ys => if tupLe x.1 y.1 then x :: y :: ys else y :: insertCand x ys

/-- Stable ascending sort of scored candidates by score, embedding
candidates.sort(key=lambda item: item[0]). -/
def sortCandidates {α : Type} : List (List ℚ × α) → List (List ℚ × α)
  | [] => []
  | x :: xs => insertCand x (sortCandidates xs)

/-- Ranked top-k selection: sort by score, take the first k, keep the
options, embedding ranked = [item[1] for item in candidates[:k]] after
the sort. -/
def rankTop {α : Type} (k : Nat) (cands : List (List ℚ × α)) : List α :=
  ((sortCandidates cands).take k).map Prod.snd

/-- Tags each candidate with its input position, keeping the score in
front so the sort compares exactly as before. -/
def tagFrom {α : Type} (n : Nat) : List (List ℚ × α) → List (List ℚ × (Nat × α))
  | [] => []
  | (s, a) :: rest => (s, (n, a)) :: tagFrom (n + 1) rest

/-- Output order demanded of a stable sort: strictly smaller score, or
equal score and strictly earlier input position. -/
def StabRel {α : Type} (a b : List ℚ × (Nat × α)) : Prop :=
  tupLe b.1 a.1 = false ∨ (a.1 = b.1 ∧ a.2.1 < b.2.1)

/-! ## Normalizer input model (langgraph_agent.py)

A raw search result carries a title, a text body, a url and an optional
structured summary.  The value _parse_structured_summary returns is
modelled by its shape as consumed downstream: absent (no payload,
unparsable JSON or a scalar), a dict possibly holding flights / hotels
keys, or a top-level list.  Row dicts are modelled as records of
optional JSON values covering every key either builder probes; a key
holding JSON null is collapsed with an absent key. -/
/-- Row of a structured summary (a JSON object), with every field the
flight and hotel builders probe. -/
structure Row where
  airline : Option VP.JVal := none
  carrier : Option VP.JVal := none
  flight_number : Option VP.JVal := none
  departure_time : Option VP.JVal := none
  departure_date : Option VP.JVal := none
  arrival_time : Option VP.JVal := none
  return_date : Option VP.JVal := none
  duration : Option VP.JVal := none
  flight_type : Option VP.JVal := none
  cabin_class : Option VP.JVal := none
  price : Option VP.JVal := none
  price_eur : Option VP.JVal := none
  stops : Option VP.JVal := none
  booking_url : Option VP.JVal := none
  name : Option VP.JVal := none
  neighborhood_or_location : Option VP.JVal := none
  star_rating : Option VP.JVal := none
  rating : Option VP.JVal := none
  guest_rating : Option VP.JVal := none
  nightly_rate : Option VP.JVal := none
  key_features : Option VP.JVal := none
deriving DecidableEq, Repr

/-- Item of a summary list: a JSON object or something else (filtered
out by the isinstance(row, dict) checks). -/
inductive SItem where
  | obj (row : Row)
  | other
deriving DecidableEq, Repr

/-- Value found under a flights / hotels key: a list, a string (its
characters are iterable but are not dicts), or a non-iterable value. -/
inductive SListVal where
  | listv (items : List SItem)
  | strv (s : String)
  | nonIter
deriving DecidableEq, Repr

/-- Shape of a parsed structured summary. -/
inductive Structured where
  | absent
  | sdict (flights : Option SListVal) (hotels : Option SListVal)
  | slist (items : List SItem)
deriving DecidableEq, Repr

/-- Raw search result as consumed by the builders. -/
structure RawResult where
  title : Option String := none
  content : Option String := none
  url : Option String := none
  structured_summary : Structured := .absent
deriving DecidableEq, Repr

/-- Python `a or b or ... or literal` over optional JSON values with a
final literal default. -/
def pyOrJVal (a : Option VP.JVal) (dflt : VP.JVal) : VP.JVal :=
  match a with
  | some v => if v.truthy then v else dflt
  | none => dflt

/-- Interactive-pipeline flight option (langgraph FlightOption row). -/
structure FlightOptionL where
  airline : VP.JVal
  flight_number : Option VP.JVal
  departure_time : VP.JVal
  arrival_time : VP.JVal
  duration : VP.JVal
  stops : Int
  price_eur : ℚ
  booking_url : VP.JVal
deriving DecidableEq, Repr

/-- Interactive-pipeline hotel option (langgraph HotelOption row). -/
structure HotelOptionL where
  name : VP.JVal
  address : VP.JVal
  star_rating : Int
  nightly_rate_eur : ℚ
  total_cost_eur : ℚ
  board_type : VP.JVal
  guest_rating : Option ℚ
  booking_url : VP.JVal
deriving DecidableEq, Repr

/-- Stops value of a structured row: numbers truncate to int, digit
strings parse, anything else defaults to 1. -/
def stopsFromRow (v : Option VP.JVal) : Int :=
  match v with
  | some (.jnum q) => VP.pyTrunc q
  | some (.jstr s) =>
    if s ≠ "" ∧ s.data.all Char.isDigit then (natOfDigits s.data : Int) else 1
  | none => 1

/-- Rows the flight builder extracts from a structured summary: the list
under a flights key of a dict, or a top-level list, objects only. -/
def flightRowsOf : Structured → List Row
  | .sdict (some (.listv items)) _ =>
    items.filterMap (fun i => match i with | .obj r => some r | .other => none)
  | .sdict _ _ => []
  | .slist items =>
    items.filterMap (fun i => match i with | .obj r => some r | .other => none)
  | .absent => []

/-- Text blob of a result: title and content joined by a space. -/
def textBlob (r : RawResult) : String :=
  (r.title.getD "") ++ " " ++ (r.content.getD "")

/-- Score of a structured flight row: (stops, price or sentinel). -/
def scoreStructuredFlight (stops : Int) (price : ℚ) : List ℚ :=
  [(stops : ℚ), if price = 0 then 9999999 else price]

/-- Score of a free-text flight candidate:
(stops, duration hours, price or sentinel). -/
def scoreTextFlight (stops : Nat) (durationHours : Nat) (price : ℚ) : List ℚ :=
  [(stops : ℚ), (durationHours : ℚ), if price = 0 then 9999999 else price]

/-- Candidates one raw result contributes in _build_flights: one scored
option per structured row when rows exist, else one scored option from
the free-text heuristics. -/
def flightCandidatesOfResult (target_date : String) (r : RawResult) :
    List (List ℚ × FlightOptionL) :=
  let rows := flightRowsOf r.structured_summary
  if rows.isEmpty then
    let blob := textBlob r
    let price := extract_price blob
    let stops := infer_stop_count blob
    let duration_hours : Nat :=
      match infer_duration_hours blob with
      | some n => if n = 0 then 99 else n
      | none => 99
    let duration_label : String :=
      if duration_hours ≠ 99 then "~" ++ toString duration_hours ++ "h travel time"
      else "See booking site"
    [(scoreTextFlight stops duration_hours price,
      { airline := .jstr (r.title.getD "Flight option")
        flight_number := none
        departure_time := .jstr target_date
        arrival_time := .jstr target_date
        duration := .jstr duration_label
        stops := (stops : Int)
        price_eur := price
        booking_url := .jstr (r.url.getD "") })]
  else
    rows.map (fun row =>
      let price := price_from_string (VP.pyOrJ row.price row.price_eur)
      let stops := stopsFromRow row.stops
      (scoreStructuredFlight stops price,
       { airline := pyOrJVal row.airline (pyOrJVal row.carrier (.jstr "Flight option"))
         flight_number := row.flight_number
         departure_time :=
           pyOrJVal row.departure_time (pyOrJVal row.departure_date (.jstr target_date))
         arrival_time :=
           pyOrJVal row.arrival_time (pyOrJVal row.return_date (.jstr target_date))
         duration :=
           pyOrJVal row.duration
             (pyOrJVal row.flight_type (pyOrJVal row.cabin_class (.jstr "See booking site")))
         stops := stops
         price_eur := price
         booking_url := row.booking_url.getD (.jstr (r.url.getD "")) }))

/-- Embeds the _build_flights closure of flight_researcher: build the
scored candidates, sort them stably by score, keep the first three
options; when no candidate exists, synthesize minimal options from the
first three raw results. -/
def build_flights (results : List RawResult) (target_date : String) :
    List FlightOptionL :=
  let candidates := (results.map (flightCandidatesOfResult target_date)).flatten
  let ranked := rankTop 3 candidates
  if !ranked.isEmpty then ranked
  else
    (results.take 3).map (fun r =>
      { airline := .jstr (r.title.getD "Flight option")
        flight_number := none
        departure_time := .jstr target_date
        arrival_time := .jstr target_date
        duration := .jstr "See booking site"
        stops := 1
        price_eur := extract_price (textBlob r)
        booking_url := .jstr (r.url.getD "") })

/-- Rows the hotel builder extracts: the hotels key is iterated without
a list check, so a non-iterable value raises TypeError. -/
def hotelRowsOf : Structured → Except VP.PyErr (List Row)
  | .sdict _ (some (.listv items)) =>
    .ok (items.filterMap (fun i => match i with | .obj r => some r | .other => none))
  | .sdict _ (some (.strv _)) => .ok []
  | .sdict _ (some .nonIter) => .error .typeError
  | .sdict _ none => .ok []
  | .slist items =>
    .ok (items.filterMap (fun i => match i with | .obj r => some r | .other => none))
  | .absent => .ok []

/-- Rating of a structured row: _extract_rating is applied to the raw
value, so a non-string raises TypeError inside re.search. -/
def ratingOfRow (v : VP.JVal) : Except VP.PyErr Int :=
  match v with
  | .jstr s => .ok (extract_rating s)
  | .jnum _ => .error .typeError

/-- Score of a hotel candidate: (nightly rate or sentinel, negated
rating). -/
def scoreHotel (nightly : ℚ) (rating : Int) : List ℚ :=
  [if nightly = 0 then 9999999 else nightly, (-rating : ℚ)]

/-- Candidates one raw result contributes in hotel_researcher for one
destination: one scored entry per structured row when rows exist, else
one free-text entry unless its rating is below the quality floor 3. -/
def hotelCandidatesOfResult (city : String) (nights : Nat) (r : RawResult) :
    Except VP.PyErr (List (List ℚ × HotelOptionL)) := do
  let rows ← hotelRowsOf r.structured_summary
  if rows.isEmpty then
    let blob := textBlob r
    let nightly := extract_price blob
    let rating := extract_rating blob
    if rating < 3 then
      pure []
    else
      pure [(scoreHotel nightly rating,
        { name := .jstr (r.title.getD ("Hotel in " ++ city))
          address := .jstr city
          star_rating := rating
          nightly_rate_eur := nightly
          total_cost_eur := if nightly ≠ 0 then nightly * (nights : ℚ) else 0
          board_type := .jstr (board_type_from_text blob)
          guest_rating := none
          booking_url := .jstr (r.url.getD "") })]
  else
    rows.mapM (fun row => do
      let nightly := price_from_string (VP.pyOrJ row.nightly_rate row.price)
      let rating ← ratingOfRow
        (pyOrJVal row.star_rating
          (pyOrJVal row.rating (pyOrJVal row.guest_rating (.jstr ""))))
      pure (scoreHotel nightly rating,
        { name := row.name.getD (.jstr ("Hotel in " ++ city))
          address := row.neighborhood_or_location.getD (.jstr city)
          star_rating := rating
          nightly_rate_eur := nightly
          total_cost_eur := if nightly ≠ 0 then nightly * (nights : ℚ) else 0
          board_type := row.key_features.getD (.jstr "")
          guest_rating := none
          booking_url := row.booking_url.getD (.jstr (r.url.getD "")) }))

/-- Embeds the per-destination body of hotel_researcher: scored
candidates, stable sort, first two options, with a raw fallback from
the first two results when nothing was scored. -/
def hotel_ranked (results : List RawResult) (city : String) (nights : Nat) :
    Except VP.PyErr (List HotelOptionL) := do
  let candLists ← results.mapM (hotelCandidatesOfResult city nights)
  let candidates := candLists.flatten
  let ranked := rankTop 2 candidates
  if !ranked.isEmpty then
    pure ranked
  else
    pure ((results.take 2).map (fun r =>
      let blob := textBlob r
      let nightly := extract_price blob
      { name := .jstr (r.title.getD ("Hotel in " ++ city))
        address := .jstr city
        star_rating := extract_rating blob
        nightly_rate_eur := nightly
        total_cost_eur := if nightly ≠ 0 then nightly * (nights : ℚ) else 0
        board_type := .jstr (board_type_from_text blob)
        guest_rating := none
        booking_url := .jstr (r.url.getD "") }))

end LG

namespace VP

/-- Example request used to instantiate universally quantified claim
theorems at concrete inputs (mirrors the sample request of the tests). -/
def sampleRequest : TripRequest :=
  { nationality := "Indian"
    residence_country := "India"
    departure_city := "Bengaluru (BLR)"
    destination_countries := ["France"]
    primary_destination_country := "France"
    start_date := "2025-06-10"
    end_date := "2025-06-12"
    purpose := "tourism"
    budget_band := "medium"
    travellers_count := 2
    traveller_names := ["Rohit", "Anita"] }

/-- Plan state entering the itinerary stage of generate_visa_pack. -/
def prePlan (req : TripRequest) : TripPlan :=
  { apply_budget_band_to_plan { request := req } with rules := some (apply_rules_agent req) }

/-- Benign environment: a configured key and a working text-generation
service, every travel-data provider unavailable. -/
def envBenign : Env :=
  { openai_api_key := some "test-key", llmResp := some "Mock cover letter" }

/-- Sample request with valid ISO dates whose end precedes its start. -/
def reqEndBeforeStart : TripRequest :=
  { sampleRequest with start_date := "2025-06-12", end_date := "2025-06-10" }

/-- Sample plan for C6: two itinerary days, three Paris hotels; the
Paris day matches by city, the Nice day exercises the fallback. -/
def planC6 : TripPlan :=
  { request := sampleRequest
    itinerary :=
      [{ date := ⟨2025, 6, 10⟩, city := "Paris", summary := "Day 1" },
       { date := ⟨2025, 6, 11⟩, city := "Nice", summary := "Day 2" }]
    hotels :=
      [{ name := "Hotel A", city := "Paris", check_in := "2025-06-10",
         check_out := "2025-06-12", approx_price_per_night_in_inr := 10000,
         tier := "mid", address := "1 Rue", booking_link := "https://a.example" },
       { name := "Hotel B", city := "Paris", check_in := "2025-06-10",
         check_out := "2025-06-12", approx_price_per_night_in_inr := 12000,
         tier := "mid", address := "2 Rue", booking_link := "https://b.example" },
       { name := "Hotel C", city := "Paris", check_in := "2025-06-10",
         check_out := "2025-06-12", approx_price_per_night_in_inr := 14000,
         tier := "mid", address := "3 Rue", booking_link := "https://c.example" }] }

end VP

namespace VP

theorem monthLen_pos (y m : Nat) : 1 ≤ monthLen y m := by
  unfold monthLen
  split <;> [skip; split] <;> first | (split <;> omega) | omega

theorem daysThru_eleven (y : Nat) :
    daysThru y 11 = 334 + (if isLeap y then 1 else 0) := by
  by_cases h : isLeap y <;> simp [daysThru, monthLen, h]

theorem year_step (y : Nat) (hy : 1 ≤ y) :
    365 * y + leapsUpTo y + 0 + 1 =
    365 * (y - 1) + leapsUpTo (y - 1) + daysThru y 11 + 31 + 1 := by
  rw [daysThru_eleven]
  unfold leapsUpTo
  rcases Bool.eq_false_or_eq_true (isLeap y) with hL | hL
  · have hfacts : (y % 4 = 0 ∧ ¬ y % 100 = 0) ∨ y % 400 = 0 := by
      simpa [isLeap] using hL
    simp only [hL, if_true]
    omega
  · have hfacts : (y % 4 = 0 → y % 100 = 0) ∧ ¬ y % 400 = 0 := by
      simpa [isLeap] using hL
    simp only [hL, Bool.false_eq_true, if_false]
    omega

/-- Stepping one day forward adds one to the ordinal, on valid dates. -/
theorem dateOrd_succ (d : Date) (h : d.valid) :
    dateOrd (succDate d) = dateOrd d + 1 := by
  obtain ⟨hy, hm1, hm2, hd1, hd2⟩ := h
  unfold succDate
  split
  · show 365 * (d.year - 1) + leapsUpTo (d.year - 1) + daysThru d.year (d.month - 1)
        + (d.day + 1) = dateOrd d + 1
    simp only [dateOrd]
    omega
  · rename_i hmon
    have hd : d.day = monthLen d.year d.month := by omega
    split
    · rename_i hm12
      obtain ⟨k, hk⟩ : ∃ k, d.month = k + 1 := ⟨d.month - 1, by omega⟩
      show 365 * (d.year - 1) + leapsUpTo (d.year - 1) + daysThru d.year (d.month + 1 - 1)
          + 1 = dateOrd d + 1
      rw [hk] at hd ⊢
      have hstep : daysThru d.year (k + 1) = daysThru d.year k + monthLen d.year (k + 1) := rfl
      simp only [dateOrd, hk, Nat.add_sub_cancel]
      omega
    · rename_i hm12
      have hmeq : d.month = 12 := by omega
      have hdl : d.day = 31 := by
        rw [hd, hmeq]; simp [monthLen]
      show 365 * (d.year + 1 - 1) + leapsUpTo (d.year + 1 - 1) + daysThru (d.year + 1) (1 - 1)
          + 1 = dateOrd d + 1
      simp only [dateOrd, hmeq, hdl, Nat.add_sub_cancel, show (12 : Nat) - 1 = 11 from rfl,
        show (1 : Nat) - 1 = 0 from rfl]
      have h0 : daysThru (d.year + 1) 0 = 0 := rfl
      rw [h0]
      exact year_step d.year hy

/-- Stepping one day forward preserves validity. -/
theorem valid_succ (d : Date) (h : d.valid) : (succDate d).valid := by
  obtain ⟨hy, hm1, hm2, hd1, hd2⟩ := h
  unfold succDate
  split
  · exact ⟨hy, hm1, hm2, (by omega : 1 ≤ d.day + 1),
      (by omega : d.day + 1 ≤ monthLen d.year d.month)⟩
  · split
    · rename_i h12
      exact ⟨hy, (by omega : 1 ≤ d.month + 1), (by omega : d.month + 1 ≤ 12),
        le_refl 1, monthLen_pos d.year (d.month + 1)⟩
    · exact ⟨(by omega : 1 ≤ d.year + 1), le_refl 1, (by omega : 1 ≤ 12),
        le_refl 1, monthLen_pos (d.year + 1) 1⟩

/-- Adding days preserves validity. -/
theorem valid_addDays (d : Date) (n : Nat) (h : d.valid) : (addDays d n).valid := by
  induction n with
  | zero => exact h
  | succ k ih =>
    have : addDays d (k + 1) = succDate (addDays d k) := by
      simp [addDays, Function.iterate_succ_apply']
    rw [this]
    exact valid_succ _ ih

/-- Adding n days adds n to the ordinal, on valid dates. -/
theorem dateOrd_addDays (d : Date) (n : Nat) (h : d.valid) :
    dateOrd (addDays d n) = dateOrd d + n := by
  induction n with
  | zero => rfl
  | succ k ih =>
    have hs : addDays d (k + 1) = succDate (addDays d k) := by
      simp [addDays, Function.iterate_succ_apply']
    rw [hs, dateOrd_succ _ (valid_addDays d k h), ih]
    omega

theorem addDays_zero (d : Date) : addDays d 0 = d := rfl

theorem addDays_addDays (d : Date) (a b : Nat) :
    addDays (addDays d a) b = addDays d (a + b) := by
  simp [addDays, Nat.add_comm a b, Function.iterate_add_apply]

/-- Ordinal image of the date-range loop: a contiguous run of naturals. -/
theorem dateRangeAux_ords (endOrd : Nat) (fuel : Nat) :
    ∀ cur : Date, cur.valid → fuel = endOrd + 1 - dateOrd cur →
      (dateRangeAux endOrd fuel cur).map dateOrd = List.range' (dateOrd cur) fuel := by
  induction fuel with
  | zero => intro cur _ _; simp [dateRangeAux]
  | succ k ih =>
    intro cur hv hfuel
    unfold dateRangeAux
    by_cases hle : dateOrd cur ≤ endOrd
    · rw [if_pos hle]
      have hk : k = endOrd + 1 - dateOrd (succDate cur) := by
        rw [dateOrd_succ cur hv]; omega
      have := ih (succDate cur) (valid_succ cur hv) hk
      simp only [List.map_cons, this, dateOrd_succ cur hv]
      rfl
    · exact absurd hfuel (by omega)

/-- Central property of make_date_list: its ordinal image is exactly the
inclusive run from the start ordinal to the end ordinal, hence the list
is in date order with no duplicates and no gaps. -/
theorem make_date_list_ords (ds de : Date) (h : ds.valid) :
    (make_date_list ds de).map dateOrd =
      List.range' (dateOrd ds) (dateOrd de + 1 - dateOrd ds) :=
  dateRangeAux_ords (dateOrd de) _ ds h rfl

theorem monthToken_bounds {cs : List Char} {m : Nat} (h : monthToken cs = some m) :
    1 ≤ m ∧ m ≤ 12 := by
  rcases cs with _ | ⟨a, _ | ⟨b, _ | _⟩⟩ <;>
    simp [monthToken, isDig, digitVal] at h <;> omega

theorem dayToken_bounds {cs : List Char} {m : Nat} (h : dayToken cs = some m) :
    1 ≤ m ∧ m ≤ 31 := by
  rcases cs with _ | ⟨a, _ | ⟨b, _ | _⟩⟩ <;>
    simp [dayToken, isDig, digitVal] at h <;> omega

/-- Successfully parsed dates are valid calendar dates. -/
theorem parse_date_valid {s : String} {d : Date} (h : parse_date s = some d) :
    d.valid := by
  unfold parse_date at h
  split at h
  · split at h
    · rename_i y m dd hy hm hd
      split at h
      · rename_i hcond
        injection h with hval
        subst hval
        obtain ⟨hm1, hm2⟩ := monthToken_bounds hm
        obtain ⟨hd1, _⟩ := dayToken_bounds hd
        exact ⟨hcond.1, hm1, hm2, hd1, hcond.2⟩
      · cases h
    · cases h
  · cases h

end VP

namespace LG
open VP

theorem calcGo_snd (cursor : Date) (dests : List DestinationReq) :
    (calcGo cursor dests).2 = nightsSum dests := by
  induction dests generalizing cursor with
  | nil => rfl
  | cons d rest ih =>
    simp [calcGo, nightsSum, List.map_cons, List.sum_cons] at *
    rw [ih]

theorem calcGo_length (cursor : Date) (dests : List DestinationReq) :
    (calcGo cursor dests).1.length = dests.length := by
  induction dests generalizing cursor with
  | nil => rfl
  | cons d rest ih =>
    simp [calcGo]
    rw [ih]

theorem calcGo_get (cursor : Date) (dests : List DestinationReq) :
    ∀ i (hi : i < (calcGo cursor dests).1.length) (hd : i < dests.length),
      ((calcGo cursor dests).1.get ⟨i, hi⟩).check_in
          = addDays cursor (nightsSum (dests.take i))
      ∧ ((calcGo cursor dests).1.get ⟨i, hi⟩).check_out
          = addDays cursor (nightsSum (dests.take (i + 1)))
      ∧ ((calcGo cursor dests).1.get ⟨i, hi⟩).nights
          = (dests.get ⟨i, hd⟩).nights := by
  induction dests generalizing cursor with
  | nil => intro i hi hd; exact absurd hd (by simp)
  | cons d rest ih =>
    intro i hi hd
    match i with
    | 0 =>
      refine ⟨rfl, ?_, rfl⟩
      show addDays cursor d.nights = addDays cursor (nightsSum [d])
      simp [nightsSum]
    | Nat.succ j =>
      have hi' : j < (calcGo (addDays cursor d.nights) rest).1.length := by
        have := calcGo_length (addDays cursor d.nights) rest
        simp [calcGo] at hi
        omega
      have hd' : j < rest.length := by simpa using hd
      have := ih (addDays cursor d.nights) j hi' hd'
      obtain ⟨h1, h2, h3⟩ := this
      refine ⟨?_, ?_, ?_⟩
      · show ((calcGo (addDays cursor d.nights) rest).1.get ⟨j, hi'⟩).check_in
            = addDays cursor (nightsSum ((d :: rest).take (j + 1)))
        rw [h1, addDays_addDays]
        simp [nightsSum]
      · show ((calcGo (addDays cursor d.nights) rest).1.get ⟨j, hi'⟩).check_out
            = addDays cursor (nightsSum ((d :: rest).take (j + 2)))
        rw [h2, addDays_addDays]
        simp [nightsSum]
      · exact h3

theorem tupLe_total (a b : List ℚ) : tupLe a b || tupLe b a := by
  induction a generalizing b with
  | nil => simp [tupLe]
  | cons x xs ih =>
    cases b with
    | nil => simp [tupLe]
    | cons y ys =>
      simp only [tupLe]
      rcases lt_trichotomy x y with h | h | h
      · simp [h, not_lt.mpr h.le, h.ne.symm]
      · subst h
        simpa [lt_irrefl] using ih ys
      · simp [h, not_lt.mpr h.le, h.ne.symm]

theorem tupLe_trans {a b c : List ℚ} (h1 : tupLe a b) (h2 : tupLe b c) :
    tupLe a c := by
  induction a generalizing b c with
  | nil => simp [tupLe]
  | cons x xs ih =>
    cases b with
    | nil => simp [tupLe] at h1
    | cons y ys =>
      cases c with
      | nil => simp [tupLe] at h2
      | cons z zs =>
        rcases lt_trichotomy x y with hxy | hxy | hxy
        · rcases lt_trichotomy y z with hyz | hyz | hyz
          · simp [tupLe, hxy.trans hyz]
          · subst hyz; simp [tupLe, hxy]
          · simp [tupLe, hyz, lt_asymm hyz] at h2
        · subst hxy
          rcases lt_trichotomy x z with hxz | hxz | hxz
          · simp [tupLe, hxz]
          · subst hxz
            simp only [tupLe, lt_irrefl, if_false] at h1 h2 ⊢
            exact ih h1 h2
          · simp [tupLe, hxz, lt_asymm hxz] at h2
        · simp [tupLe, hxy, lt_asymm hxy] at h1

theorem tupLe_antisymm {a b : List ℚ} (h1 : tupLe a b) (h2 : tupLe b a) :
    a = b := by
  induction a generalizing b with
  | nil =>
    cases b with
    | nil => rfl
    | cons y ys => simp [tupLe] at h2
  | cons x xs ih =>
    cases b with
    | nil => simp [tupLe] at h1
    | cons y ys =>
      rcases lt_trichotomy x y with hxy | hxy | hxy
      · simp [tupLe, hxy, lt_asymm hxy] at h2
      · subst hxy
        simp only [tupLe, lt_irrefl, if_false] at h1 h2
        rw [ih h1 h2]
      · simp [tupLe, hxy, lt_asymm hxy] at h1

theorem length_insertCand {α : Type} (x : List ℚ × α) (l : List (List ℚ × α)) :
    (insertCand x l).length = l.length + 1 := by
  induction l with
  | nil => rfl
  | cons y ys ih =>
    simp only [insertCand]
    split <;> simp [ih]

theorem length_sortCandidates {α : Type} (l : List (List ℚ × α)) :
    (sortCandidates l).length = l.length := by
  induction l with
  | nil => rfl
  | cons x xs ih => simp [sortCandidates, length_insertCand, ih]

theorem rankTop_length_le {α : Type} (k : Nat) (cands : List (List ℚ × α)) :
    (rankTop k cands).length ≤ k := by
  simp [rankTop]

theorem mem_insertCand {α : Type} {x y : List ℚ × α} {l : List (List ℚ × α)}
    (h : y ∈ insertCand x l) : y = x ∨ y ∈ l := by
  induction l with
  | nil => simpa [insertCand] using h
  | cons z zs ih =>
    simp only [insertCand] at h
    split at h
    · rcases List.mem_cons.mp h with rfl | h2
      · exact Or.inl rfl
      · exact Or.inr h2
    · rcases List.mem_cons.mp h with rfl | h2
      · exact Or.inr (List.mem_cons_self _ _)
      · rcases ih h2 with h3 | h3
        · exact Or.inl h3
        · exact Or.inr (List.mem_cons_of_mem _ h3)

theorem pairwise_insertCand {α : Type} (x : List ℚ × α) (l : List (List ℚ × α))
    (hl : l.Pairwise (fun a b => tupLe a.1 b.1 = true)) :
    (insertCand x l).Pairwise (fun a b => tupLe a.1 b.1 = true) := by
  induction l with
  | nil => simp [insertCand]
  | cons y ys ih =>
    simp only [insertCand]
    rcases List.pairwise_cons.mp hl with ⟨hy, hys⟩
    split
    · rename_i hxy
      refine List.pairwise_cons.mpr ⟨?_, hl⟩
      intro z hz
      rcases List.mem_cons.mp hz with rfl | hz2
      · exact hxy
      · exact tupLe_trans hxy (hy z hz2)
    · rename_i hxy
      have hyx : tupLe y.1 x.1 := by
        have := tupLe_total x.1 y.1
        simp [hxy] at this
        exact this
      refine List.pairwise_cons.mpr ⟨?_, ih hys⟩
      intro z hz
      rcases mem_insertCand hz with hz2 | hz2
      · subst hz2; exact hyx
      · exact hy z hz2

theorem pairwise_sortCandidates {α : Type} (l : List (List ℚ × α)) :
    (sortCandidates l).Pairwise (fun a b => tupLe a.1 b.1 = true) := by
  induction l with
  | nil => simp [sortCandidates]
  | cons x xs ih => exact pairwise_insertCand x _ ih

/-- Sortedness of the ranked prefix: scores appear in ascending order. -/
theorem rankTop_sorted {α : Type} (k : Nat) (cands : List (List ℚ × α)) :
    ((sortCandidates cands).take k).Pairwise (fun a b => tupLe a.1 b.1 = true) :=
  (pairwise_sortCandidates cands).sublist (List.take_sublist k _)

theorem StabRel.le {α : Type} {a b : List ℚ × (Nat × α)} (h : StabRel a b) :
    tupLe a.1 b.1 = true := by
  rcases h with h | ⟨h, _⟩
  · have := tupLe_total a.1 b.1
    simp [h] at this
    exact this
  · rw [h]
    have := tupLe_total b.1 b.1
    simpa using this

theorem tagFrom_tag_lt {α : Type} (n : Nat) (l : List (List ℚ × α)) :
    ∀ y ∈ tagFrom n l, n ≤ y.2.1 := by
  induction l generalizing n with
  | nil => intro y hy; cases hy
  | cons p rest ih =>
    intro y hy
    obtain ⟨s, a⟩ := p
    rcases List.mem_cons.mp hy with rfl | hy2
    · exact le_refl n
    · exact le_trans (by omega) (ih (n + 1) y hy2)

theorem mem_sortCandidates {α : Type} {y : List ℚ × α} {l : List (List ℚ × α)}
    (h : y ∈ sortCandidates l) : y ∈ l := by
  induction l with
  | nil => cases h
  | cons x xs ih =>
    rcases mem_insertCand h with rfl | h2
    · exact List.mem_cons_self _ _
    · exact List.mem_cons_of_mem _ (ih h2)

theorem pairwise_insert_stab {α : Type} (x : List ℚ × (Nat × α))
    (m : List (List ℚ × (Nat × α)))
    (hm : m.Pairwise StabRel)
    (htag : ∀ y ∈ m, x.2.1 < y.2.1) :
    (insertCand x m).Pairwise StabRel := by
  induction m with
  | nil => simp [insertCand]
  | cons y ys ih =>
    rcases List.pairwise_cons.mp hm with ⟨hy, hys⟩
    simp only [insertCand]
    split
    · rename_i hxy
      refine List.pairwise_cons.mpr ⟨?_, hm⟩
      intro z hz
      have hxz : tupLe x.1 z.1 = true := by
        rcases List.mem_cons.mp hz with rfl | hz2
        · exact hxy
        · exact tupLe_trans hxy (hy z hz2).le
      rcases hb : tupLe z.1 x.1 with _ | _
      · exact Or.inl hb
      · refine Or.inr ⟨tupLe_antisymm hxz hb, ?_⟩
        exact htag z hz
    · rename_i hxy
      refine List.pairwise_cons.mpr ⟨?_, ih hys (fun z hz => htag z (List.mem_cons_of_mem _ hz))⟩
      intro z hz
      rcases mem_insertCand hz with rfl | hz2
      · exact Or.inl (by simpa using hxy)
      · exact hy z hz2

/-- Stability of the embedded sort: on a position-tagged input, the
sorted output is pairwise ordered by strictly smaller score or by input
position on score ties. -/
theorem sortCandidates_stable {α : Type} (n : Nat) (l : List (List ℚ × α)) :
    (sortCandidates (tagFrom n l)).Pairwise StabRel := by
  induction l generalizing n with
  | nil => simp [tagFrom, sortCandidates]
  | cons p rest ih =>
    obtain ⟨s, a⟩ := p
    simp only [tagFrom, sortCandidates]
    refine pairwise_insert_stab _ _ (ih (n + 1)) ?_
    intro y hy
    have h1 := tagFrom_tag_lt (n + 1) rest y (mem_sortCandidates hy)
    show n < y.2.1
    omega

/-- Dropping the tags commutes with the sort, so the tagged run ranks
options exactly as the untagged run the code performs. -/
theorem sortCandidates_untag {α : Type} (n : Nat) (l : List (List ℚ × α)) :
    (sortCandidates (tagFrom n l)).map (fun p => (p.1, p.2.2)) = sortCandidates l := by
  have hins : ∀ (x : List ℚ × (Nat × α)) (m : List (List ℚ × (Nat × α))),
      (insertCand x m).map (fun p => (p.1, p.2.2))
        = insertCand (x.1, x.2.2) (m.map (fun p => (p.1, p.2.2))) := by
    intro x m
    induction m with
    | nil => rfl
    | cons y ys ihm =>
      simp only [insertCand]
      split
      · rename_i hle
        simp [insertCand, hle]
      · rename_i hle
        simp [insertCand, hle, ihm]
  induction l generalizing n with
  | nil => rfl
  | cons p rest ih =>
    obtain ⟨s, a⟩ := p
    simp only [tagFrom, sortCandidates]
    rw [hins]
    rw [ih (n + 1)]

theorem nightsSum_take_succ (dests : List DestinationReq) (i : Nat) (hd : i < dests.length) :
    nightsSum (dests.take (i + 1))
      = nightsSum (dests.take i) + (dests.get ⟨i, hd⟩).nights := by
  unfold nightsSum
  rw [List.map_take, List.map_take, List.sum_take_succ _ i (by simpa using hd)]
  simp

end LG

/-- C9: apply_budget_band_to_plan maps band high to (300000, None),
low to (100000, 150000), medium to (150000, 300000), and any
unrecognized band to the medium range, comparing the band
case-insensitively (with empty band treated as medium). -/
theorem claim_C9 (p : VP.TripPlan) :
    (VP.pyLower (VP.pyOrStr p.request.budget_band "medium") = "high" →
      (VP.apply_budget_band_to_plan p).budget_per_person_min_inr = some 300000
      ∧ (VP.apply_budget_band_to_plan p).budget_per_person_max_inr = none)
    ∧ (VP.pyLower (VP.pyOrStr p.request.budget_band "medium") = "low" →
      (VP.apply_budget_band_to_plan p).budget_per_person_min_inr = some 100000
      ∧ (VP.apply_budget_band_to_plan p).budget_per_person_max_inr = some 150000)
    ∧ (VP.pyLower (VP.pyOrStr p.request.budget_band "medium") = "medium" →
      (VP.apply_budget_band_to_plan p).budget_per_person_min_inr = some 150000
      ∧ (VP.apply_budget_band_to_plan p).budget_per_person_max_inr = some 300000)
    ∧ (VP.pyLower (VP.pyOrStr p.request.budget_band "medium") ≠ "low" →
      VP.pyLower (VP.pyOrStr p.request.budget_band "medium") ≠ "medium" →
      VP.pyLower (VP.pyOrStr p.request.budget_band "medium") ≠ "high" →
      (VP.apply_budget_band_to_plan p).budget_per_person_min_inr = some 150000
      ∧ (VP.apply_budget_band_to_plan p).budget_per_person_max_inr = some 300000) := by
  simp only [VP.apply_budget_band_to_plan]
  split_ifs with h1 h2 h3 <;> simp_all

/-- Witness for C9 at concrete bands, including a case-insensitive one. -/
theorem claim_C9_witness :
    (VP.apply_budget_band_to_plan
        { request := { VP.sampleRequest with budget_band := "HIGH" } }).budget_per_person_min_inr
      = some 300000
    ∧ (VP.apply_budget_band_to_plan
        { request := { VP.sampleRequest with budget_band := "HIGH" } }).budget_per_person_max_inr
      = none
    ∧ (VP.apply_budget_band_to_plan
        { request := { VP.sampleRequest with budget_band := "exotic" } }).budget_per_person_min_inr
      = some 150000 := by
  have h1 := claim_C9 { request := { VP.sampleRequest with budget_band := "HIGH" } }
  have h2 := claim_C9 { request := { VP.sampleRequest with budget_band := "exotic" } }
  refine ⟨(h1.1 (by decide)).1, (h1.1 (by decide)).2, ?_⟩
  exact (h2.2.2.2 (by decide) (by decide) (by decide)).1

/-- C10: the destination-date computation produces a contiguous chain:
the first check-in equals the trip start date, every check-out equals
its check-in plus the destination nights, each later check-in equals
the previous check-out, and the returned end date is the start date
plus the total nights (also stated on day ordinals). -/
theorem claim_C10 (start : VP.Date) (dests : List LG.DestinationReq)
    (hv : start.valid) :
    (LG.calculate_destination_dates start dests).1.length = dests.length
    ∧ (∀ h0 : 0 < (LG.calculate_destination_dates start dests).1.length,
        ((LG.calculate_destination_dates start dests).1.get ⟨0, h0⟩).check_in = start)
    ∧ (∀ i (hi : i < (LG.calculate_destination_dates start dests).1.length)
        (hd : i < dests.length),
        ((LG.calculate_destination_dates start dests).1.get ⟨i, hi⟩).check_out
          = VP.addDays ((LG.calculate_destination_dates start dests).1.get ⟨i, hi⟩).check_in
              (dests.get ⟨i, hd⟩).nights)
    ∧ (∀ i (hi : i + 1 < (LG.calculate_destination_dates start dests).1.length)
        (hj : i < (LG.calculate_destination_dates start dests).1.length),
        ((LG.calculate_destination_dates start dests).1.get ⟨i + 1, hi⟩).check_in
          = ((LG.calculate_destination_dates start dests).1.get ⟨i, hj⟩).check_out)
    ∧ (LG.calculate_destination_dates start dests).2.1
        = VP.addDays start (LG.calculate_destination_dates start dests).2.2
    ∧ (LG.calculate_destination_dates start dests).2.2 = LG.nightsSum dests
    ∧ VP.dateOrd (LG.calculate_destination_dates start dests).2.1
        = VP.dateOrd start + LG.nightsSum dests
    ∧ (∀ i (hi : i < (LG.calculate_destination_dates start dests).1.length)
        (hd : i < dests.length),
        VP.dateOrd ((LG.calculate_destination_dates start dests).1.get ⟨i, hi⟩).check_out
          = VP.dateOrd ((LG.calculate_destination_dates start dests).1.get ⟨i, hi⟩).check_in
            + (dests.get ⟨i, hd⟩).nights) := by
  have hsnd := LG.calcGo_snd start dests
  have hlen := LG.calcGo_length start dests
  refine ⟨hlen, ?_, ?_, ?_, rfl, hsnd, ?_, ?_⟩
  · intro h0
    have h0' : 0 < (LG.calcGo start dests).1.length := h0
    have hd0 : 0 < dests.length := by omega
    obtain ⟨h1, _, _⟩ := LG.calcGo_get start dests 0 h0' hd0
    show ((LG.calcGo start dests).1.get ⟨0, h0'⟩).check_in = start
    simpa [LG.nightsSum] using h1
  · intro i hi hd
    have hi' : i < (LG.calcGo start dests).1.length := hi
    obtain ⟨h1, h2, _⟩ := LG.calcGo_get start dests i hi' hd
    show ((LG.calcGo start dests).1.get ⟨i, hi'⟩).check_out
        = VP.addDays ((LG.calcGo start dests).1.get ⟨i, hi'⟩).check_in
            (dests.get ⟨i, hd⟩).nights
    rw [h1, h2, VP.addDays_addDays, LG.nightsSum_take_succ dests i hd]
  · intro i hi hj
    have hi' : i + 1 < (LG.calcGo start dests).1.length := hi
    have hj' : i < (LG.calcGo start dests).1.length := hj
    have hd1 : i + 1 < dests.length := by omega
    have hd0 : i < dests.length := by omega
    obtain ⟨h1, _, _⟩ := LG.calcGo_get start dests (i + 1) hi' hd1
    obtain ⟨_, h2, _⟩ := LG.calcGo_get start dests i hj' hd0
    show ((LG.calcGo start dests).1.get ⟨i + 1, hi'⟩).check_in
        = ((LG.calcGo start dests).1.get ⟨i, hj'⟩).check_out
    rw [h1, h2]
  · show VP.dateOrd (VP.addDays start (LG.calcGo start dests).2)
        = VP.dateOrd start + LG.nightsSum dests
    rw [hsnd, VP.dateOrd_addDays start _ hv]
  · intro i hi hd
    have hi' : i < (LG.calcGo start dests).1.length := hi
    obtain ⟨h1, h2, _⟩ := LG.calcGo_get start dests i hi' hd
    show VP.dateOrd ((LG.calcGo start dests).1.get ⟨i, hi'⟩).check_out
        = VP.dateOrd ((LG.calcGo start dests).1.get ⟨i, hi'⟩).check_in
          + (dests.get ⟨i, hd⟩).nights
    rw [h1, h2, VP.dateOrd_addDays start _ hv, VP.dateOrd_addDays start _ hv,
      LG.nightsSum_take_succ dests i hd]
    omega

/-- C2: the flight ranker (stable sort over score tuples followed by a
top-k slice) returns at most k options, ascending by comparison key with
stops before price and the 9999999 sentinel replacing price 0, ties
broken by input order; on score tuples [(0,100),(1,50),(0,80)] with
top_k = 2 the option scored (0,80) comes before the one scored (0,100). -/
theorem claim_C2 :
    (∀ (α : Type) (cands : List (List ℚ × α)) (k : Nat),
      (LG.rankTop k cands).length ≤ k)
    ∧ (∀ (α : Type) (cands : List (List ℚ × α)) (k : Nat),
      ((LG.sortCandidates cands).take k).Pairwise (fun a b => LG.tupLe a.1 b.1 = true))
    ∧ (∀ (α : Type) (cands : List (List ℚ × α)),
      (LG.sortCandidates (LG.tagFrom 0 cands)).Pairwise LG.StabRel)
    ∧ (∀ (α : Type) (cands : List (List ℚ × α)),
      (LG.sortCandidates (LG.tagFrom 0 cands)).map (fun p => (p.1, p.2.2))
        = LG.sortCandidates cands)
    ∧ (∀ stops : Int, LG.scoreStructuredFlight stops 0 = [(stops : ℚ), 9999999])
    ∧ (∀ (stops : Int) (p : ℚ), p ≠ 0 →
      LG.scoreStructuredFlight stops p = [(stops : ℚ), p])
    ∧ LG.rankTop 2 [([0, 100], 0), ([1, 50], 1), ([0, 80], 2)] = [2, 0] := by
  refine ⟨fun α c k => LG.rankTop_length_le k c,
    fun α c k => LG.rankTop_sorted k c,
    fun α c => LG.sortCandidates_stable 0 c,
    fun α c => LG.sortCandidates_untag 0 c,
    fun s => by simp [LG.scoreStructuredFlight],
    fun s p hp => by simp [LG.scoreStructuredFlight, hp],
    by decide⟩

/-- Witness for C2 at concrete inputs. -/
theorem claim_C2_witness :
    LG.rankTop 2 [([0, 100], 0), ([1, 50], 1), ([0, 80], 2)] = [2, 0]
    ∧ LG.scoreStructuredFlight 0 80 = [0, 80] := by
  have h := claim_C2
  refine ⟨h.2.2.2.2.2.2, ?_⟩
  have h2 := h.2.2.2.2.2.1 0 80 (by norm_num)
  simpa using h2

/-- C4: the ranked flight list per direction never exceeds 3 options and
the ranked hotel list per city never exceeds 2, including on the raw
fallback paths (which may return fewer, never more). -/
theorem claim_C4 :
    (∀ (results : List LG.RawResult) (target_date : String),
      (LG.build_flights results target_date).length ≤ 3)
    ∧ (∀ (results : List LG.RawResult) (city : String) (nights : Nat)
        (l : List LG.HotelOptionL),
        LG.hotel_ranked results city nights = .ok l → l.length ≤ 2) := by
  constructor
  · intro results td
    simp only [LG.build_flights]
    split
    · exact LG.rankTop_length_le 3 _
    · simp
  · intro results city nights l h
    unfold LG.hotel_ranked at h
    cases hm : results.mapM (LG.hotelCandidatesOfResult city nights) with
    | error e =>
      rw [hm] at h
      simp [Bind.bind, Except.bind] at h
    | ok candLists =>
      rw [hm] at h
      simp only [Bind.bind, Except.bind] at h
      split at h
      · simp only [Pure.pure, Except.pure, Except.ok.injEq] at h
        subst h
        exact LG.rankTop_length_le 2 _
      · simp only [Pure.pure, Except.pure, Except.ok.injEq] at h
        subst h
        simp

/-- Witness for C4: with no raw results the flight list is empty and the
hotel list is empty, within the caps. -/
theorem claim_C4_witness :
    (LG.build_flights [] "2025-06-10").length ≤ 3
    ∧ ∃ l, LG.hotel_ranked [] "Paris" 2 = .ok l ∧ l.length ≤ 2 := by
  refine ⟨claim_C4.1 [] "2025-06-10", [], rfl, claim_C4.2 [] "Paris" 2 [] rfl⟩

/-- C7: the free-text price heuristic returns the first number after a
currency marker (or a number directly before a currency code) and 0.0
otherwise; the quoted examples extract 450.0 and 0.0. -/
theorem claim_C7 :
    LG.extract_price "Flights from €450 one-way" = 450
    ∧ LG.extract_price "no price info available" = 0
    ∧ (∀ text : String, LG.findPriceMatch text.data = none →
        LG.findNumCur none text.data = none → LG.extract_price text = 0) := by
  refine ⟨by decide, by decide, ?_⟩
  intro text h1 h2
  unfold LG.extract_price
  rw [h1, h2]
  simp

/-- Witness for C7 at a concrete no-pattern input. -/
theorem claim_C7_witness : LG.extract_price "see brochure" = 0 :=
  claim_C7.2.2 "see brochure" (by decide) (by decide)

/-- C8: the hotel star rating extraction returns 4 when no rating
pattern matches or the matched number fails to parse; the quoted
example yields 4. -/
theorem claim_C8 :
    LG.extract_rating "Charming boutique hotel near the river" = 4
    ∧ (∀ text : String, LG.findRating text.data = none → LG.extract_rating text = 4)
    ∧ (∀ (text : String) (g : List Char), LG.findRating text.data = some g →
        LG.pyFloatDigitsDots g = none → LG.extract_rating text = 4) := by
  refine ⟨by decide, ?_, ?_⟩
  · intro text h
    unfold LG.extract_rating
    rw [h]
  · intro text g h1 h2
    unfold LG.extract_rating
    rw [h1]
    simp [h2]

/-- Witness for C8 at a concrete no-pattern input. -/
theorem claim_C8_witness : LG.extract_rating "cosy riverside inn" = 4 :=
  claim_C8.2.1 "cosy riverside inn" (by decide)

/-- Witness for C10: a two-destination trip starting 2025-06-10 with
2 and 3 nights ends 5 days after the start. -/
theorem claim_C10_witness :
    VP.dateOrd (LG.calculate_destination_dates ⟨2025, 6, 10⟩
        [⟨"France", "Paris", 2⟩, ⟨"Italy", "Rome", 3⟩]).2.1
      = VP.dateOrd ⟨2025, 6, 10⟩ + 5 := by
  have h := claim_C10 ⟨2025, 6, 10⟩ [⟨"France", "Paris", 2⟩, ⟨"Italy", "Rome", 3⟩]
    (by decide)
  simpa [LG.nightsSum] using h.2.2.2.2.2.2.1

namespace VP

@[simp]
theorem ok_bind {α β : Type} (a : α) (k : α → Except PyErr β) :
    (Except.ok a >>= k) = k a := rfl

@[simp]
theorem pure_eq_ok {α : Type} (a : α) : (pure a : Except PyErr α) = Except.ok a := rfl

@[simp]
theorem err_bind {α β : Type} (e : PyErr) (k : α → Except PyErr β) :
    (Except.error e >>= k) = Except.error e := rfl

theorem listHead_ok {α : Type} {l : List α} (h : l ≠ []) :
    ∃ c, listHead l = .ok c := by
  cases l with
  | nil => exact absurd rfl h
  | cons x rest => exact ⟨x, rfl⟩

theorem fillerDays_ok {dests : List String} (h : dests ≠ []) (dates : List Date) :
    ∃ l, fillerDays dests dates = .ok l := by
  induction dates with
  | nil => exact ⟨[], rfl⟩
  | cons d rest ih =>
    obtain ⟨c, hc⟩ := listHead_ok h
    obtain ⟨tail, htail⟩ := ih
    exact ⟨({ date := d, city := c, summary := "Sightseeing and local exploration." } : DayPlan) :: tail,
      by simp [fillerDays, hc, htail]⟩

theorem planChunkStep_ok (env : Env) {dests : List String} (h : dests ≠ [])
    (acc : List DayPlan) (seg : List Date) :
    ∃ out, planChunkStep env dests acc seg = .ok out := by
  cases hg : env.segGen seg with
  | none =>
    obtain ⟨l, hl⟩ := fillerDays_ok h seg
    exact ⟨acc ++ l, by simp [planChunkStep, hg, hl]⟩
  | some raw =>
    cases hp : genSegProcess dests seg raw with
    | ok plans => exact ⟨acc ++ plans, by simp [planChunkStep, hg, hp]⟩
    | error e =>
      obtain ⟨l, hl⟩ := fillerDays_ok h seg
      exact ⟨acc ++ l, by simp [planChunkStep, hg, hp, hl]⟩

theorem chunkFold_ok (env : Env) {dests : List String} (h : dests ≠ []) :
    ∀ (chunks : List (List Date)) (acc : List DayPlan),
      ∃ out, List.foldlM (planChunkStep env dests) acc chunks = .ok out := by
  intro chunks
  induction chunks with
  | nil => intro acc; exact ⟨acc, rfl⟩
  | cons c cs ih =>
    intro acc
    obtain ⟨out1, h1⟩ := planChunkStep_ok env h acc c
    obtain ⟨out2, h2⟩ := ih out1
    exact ⟨out2, by simp [List.foldlM_cons, h1, h2]⟩

theorem finalLoopGo_ok {dests : List String} (plans : List DayPlan)
    (h : dests ≠ []) :
    ∀ (dates : List Date) (used : List Date),
      ∃ l, finalLoopGo dests plans used dates = .ok l
        ∧ l.map DayPlan.date = dates := by
  intro dates
  induction dates with
  | nil => intro used; exact ⟨[], rfl, rfl⟩
  | cons d rest ih =>
    intro used
    cases hf : plans.filter (fun dp => decide (dp.date = d) && !used.contains dp.date) with
    | cons dp t =>
      obtain ⟨tail, htail, hmap⟩ := ih (used ++ [d])
      have hdpd : dp.date = d := by
        have hmem : dp ∈ plans.filter (fun dp => decide (dp.date = d) && !used.contains dp.date) := by
          rw [hf]; exact List.mem_cons_self _ _
        have := List.of_mem_filter hmem
        simp at this
        exact this.1
      refine ⟨dp :: tail, ?_, ?_⟩
      · simp only [finalLoopGo]
        rw [hf]
        simp [htail]
      · simp [hmap, hdpd]
    | nil =>
      obtain ⟨c, hc⟩ := listHead_ok h
      obtain ⟨tail, htail, hmap⟩ := ih used
      refine ⟨({ date := d, city := c, summary := "Sightseeing and local exploration." } : DayPlan) :: tail, ?_, ?_⟩
      · simp only [finalLoopGo]
        rw [hf]
        simp [hc, htail]
      · simp [hmap]

theorem make_date_list_str_ok {s e : String} {ds de : Date}
    (h1 : parse_date s = some ds) (h2 : parse_date e = some de) :
    make_date_list_str s e = .ok (make_date_list ds de) := by
  simp [make_date_list_str, h1, h2]

end VP

/-- C1: for valid ISO start and end dates with end not before start,
plan_itinerary_agent returns exactly one DayPlan per calendar date in
the inclusive range, in date order with no duplicates and no gaps,
whatever the upstream generator returns for each segment (a raw day
list or an exception). -/
theorem claim_C1 (env : VP.Env) (plan : VP.TripPlan) (ds de : VP.Date)
    (h1 : VP.parse_date plan.request.start_date = some ds)
    (h2 : VP.parse_date plan.request.end_date = some de)
    (_h3 : VP.dateOrd ds ≤ VP.dateOrd de)
    (h4 : plan.request.destination_countries ≠ []) :
    ∃ p2, VP.plan_itinerary_agent env plan = .ok p2
      ∧ p2.itinerary.map VP.DayPlan.date = VP.make_date_list ds de
      ∧ (VP.make_date_list ds de).map VP.dateOrd
          = List.range' (VP.dateOrd ds) (VP.dateOrd de + 1 - VP.dateOrd ds)
      ∧ p2.itinerary.length = VP.dateOrd de + 1 - VP.dateOrd ds := by
  obtain ⟨plans, hplans⟩ := VP.chunkFold_ok env h4
    (VP.chunksOf 8 (VP.make_date_list ds de)) []
  obtain ⟨final, hfinal, hmap⟩ := VP.finalLoopGo_ok plans h4 (VP.make_date_list ds de) []
  have hords := VP.make_date_list_ords ds de (VP.parse_date_valid h1)
  refine ⟨{ plan with itinerary := final }, ?_, by simpa using hmap, hords, ?_⟩
  · simp [VP.plan_itinerary_agent, VP.make_date_list_str_ok h1 h2, hplans, hfinal]
  · have hlen1 : final.length = (VP.make_date_list ds de).length := by
      have := congrArg List.length hmap
      simpa using this
    have hlen2 : ((VP.make_date_list ds de).map VP.dateOrd).length
        = (List.range' (VP.dateOrd ds) (VP.dateOrd de + 1 - VP.dateOrd ds)).length := by
      rw [hords]
    simp at hlen2
    simpa [hlen1] using hlen2

/-- Witness for C1: the sample three-day request with a generator that
always fails still yields the three requested dates. -/
theorem claim_C1_witness :
    ∃ p2, VP.plan_itinerary_agent { openai_api_key := some "k" }
        { request := VP.sampleRequest } = .ok p2
      ∧ p2.itinerary.map VP.DayPlan.date
          = VP.make_date_list ⟨2025, 6, 10⟩ ⟨2025, 6, 12⟩ := by
  obtain ⟨p2, ha, hb, _, _⟩ := claim_C1 { openai_api_key := some "k" }
    { request := VP.sampleRequest } ⟨2025, 6, 10⟩ ⟨2025, 6, 12⟩
    (by decide) (by decide) (by decide) (by decide)
  exact ⟨p2, ha, hb⟩

/-- C3: with every flight data source unavailable (empty or failed
Aviasales fetch, missing or empty Amadeus), recommend_flights returns
exactly the two synthesized options, one inbound and one outbound,
priced from the budget-band base-price table; never an empty list. -/
theorem claim_C3 (env : VP.Env) (req : VP.TripRequest) (settings : VP.Settings)
    (origin dest : String)
    (h1 : VP.get_settings env = .ok settings)
    (h2 : VP.extract_iata req.departure_city = .ok origin)
    (h3 : VP.resolve_dest_airport req = .ok dest)
    (h4 : VP.fetch_aviasales settings.travelpayouts_token settings.aviasales_partner_id
      origin dest env.aviaHttp = .ok [])
    (h5 : VP.falsyOpt (VP.get_amadeus_token settings env) = true ∨ env.amadeusOptions = []) :
    VP.recommend_flights env req = .ok (VP.fallback_recommendations req)
    ∧ (VP.fallback_recommendations req).length = 2
    ∧ (VP.fallback_recommendations req).map VP.FlightOption.label
        = ["Inbound Option", "Outbound Option"]
    ∧ ∀ f ∈ VP.fallback_recommendations req,
        f.price_in_inr = VP.base_price_band req.budget_band := by
  refine ⟨?_, rfl, ?_, ?_⟩
  · rcases h5 with h5 | h5 <;>
      [simp [VP.recommend_flights, h1, h2, h3, h4, h5];
       cases hT : VP.falsyOpt (VP.get_amadeus_token settings env)] <;>
      simp [VP.recommend_flights, h1, h2, h3, h4, h5, hT]
  · simp [VP.fallback_recommendations]
  · intro f hf
    simp only [VP.fallback_recommendations] at hf
    rcases List.mem_cons.mp hf with rfl | hf2
    · rfl
    · rcases List.mem_cons.mp hf2 with rfl | hf3
      · rfl
      · cases hf3

/-- Witness for C3 at the sample request with a bare environment: only
the OpenAI key is present, every flight source is unavailable. -/
theorem claim_C3_witness :
    VP.recommend_flights { openai_api_key := some "k" } VP.sampleRequest
      = .ok (VP.fallback_recommendations VP.sampleRequest)
    ∧ (VP.fallback_recommendations VP.sampleRequest).length = 2 := by
  have h := claim_C3 { openai_api_key := some "k" } VP.sampleRequest
    { openai_api_key := "k" } "BLR" "CDG" rfl rfl rfl rfl (Or.inl rfl)
  exact ⟨h.1, h.2.1⟩

namespace VP

theorem generate_visa_pack_eq (env : Env) (req : TripRequest) :
    generate_visa_pack env req =
      (plan_itinerary_agent env (prePlan req) >>= fun p3 =>
        recommend_flights_agent env p3 >>= fun p4 =>
          recommend_hotels_agent env p4 >>= fun p5 =>
            generate_documents_agent env
              (validate_trip_agent (enrich_itinerary (recommend_insurance_agent p5)))) := rfl

theorem plan_itinerary_parse_err (env : Env) (plan : TripPlan)
    (h : parse_date plan.request.start_date = none
      ∨ parse_date plan.request.end_date = none) :
    plan_itinerary_agent env plan = .error .valueError := by
  rcases h with h | h
  · simp [plan_itinerary_agent, make_date_list_str, h]
  · cases hs : parse_date plan.request.start_date <;>
      simp [plan_itinerary_agent, make_date_list_str, hs, h]

theorem genSegProcess_err_emptyDests (d : Date) (t : List Date) (raw : List RawIt) :
    genSegProcess [] (d :: t) raw = .error .indexError := by
  cases raw with
  | nil => simp [genSegProcess, genSegLoop1, genSegLoop2, listHead]
  | cons i rest => simp [genSegProcess, genSegLoop1, listHead]

theorem fillerDays_err_emptyDests (d : Date) (t : List Date) :
    fillerDays [] (d :: t) = .error .indexError := by
  simp [fillerDays, listHead]

theorem planChunkStep_err_emptyDests (env : Env) (acc : List DayPlan)
    (d : Date) (t : List Date) :
    planChunkStep env [] acc (d :: t) = .error .indexError := by
  cases hg : env.segGen (d :: t) with
  | none => simp [planChunkStep, hg, fillerDays_err_emptyDests]
  | some raw =>
    simp [planChunkStep, hg, genSegProcess_err_emptyDests, fillerDays_err_emptyDests]

theorem plan_itinerary_empty_dests (env : Env) (plan : TripPlan)
    (hd : plan.request.destination_countries = []) :
    (∃ e, plan_itinerary_agent env plan = .error e)
    ∨ plan_itinerary_agent env plan = .ok { plan with itinerary := [] } := by
  cases hs : parse_date plan.request.start_date with
  | none =>
    exact Or.inl ⟨.valueError, plan_itinerary_parse_err env plan (Or.inl hs)⟩
  | some ds =>
    cases he : parse_date plan.request.end_date with
    | none =>
      exact Or.inl ⟨.valueError, plan_itinerary_parse_err env plan (Or.inr he)⟩
    | some de =>
      cases hml : make_date_list ds de with
      | nil =>
        right
        simp [plan_itinerary_agent, make_date_list_str, hs, he, hml, chunksOf,
          chunksFuel, finalLoopGo]
      | cons d rest =>
        left
        refine ⟨.indexError, ?_⟩
        simp only [plan_itinerary_agent, make_date_list_str, hs, he, hml, hd, ok_bind]
        have hchunk : chunksOf 8 (d :: rest) = (d :: rest).take 8 :: chunksFuel 8 rest.length (rest.drop 7) := by
          simp [chunksOf, chunksFuel]
        rw [hchunk]
        have htake : (d :: rest).take 8 = d :: rest.take 7 := by simp
        rw [List.foldlM_cons, htake, planChunkStep_err_emptyDests]
        simp

theorem recommend_hotels_agent_err (env : Env) (plan : TripPlan)
    (hd : plan.request.destination_countries = [])
    (hit : plan.itinerary = []) :
    recommend_hotels_agent env plan = .error .indexError := by
  simp [recommend_hotels_agent, hit, hd, listHead]

theorem recommend_flights_agent_ok_inv (env : Env) (p q : TripPlan)
    (hq : recommend_flights_agent env p = .ok q) :
    q.itinerary = p.itinerary ∧ q.request = p.request := by
  unfold recommend_flights_agent at hq
  cases h : recommend_flights env p.request with
  | error e => rw [h] at hq; simp at hq
  | ok fl =>
    rw [h] at hq
    simp at hq
    rw [← hq]
    exact ⟨rfl, rfl⟩

end VP

/-- C5 (amended): generate_visa_pack surfaces a hard error for
unparseable start or end dates and for an empty destination list; an
end date strictly before the start date is not rejected (see the
counterexample: the pipeline completes with an empty itinerary). -/
theorem claim_C5 (env : VP.Env) (req : VP.TripRequest) :
    ((VP.parse_date req.start_date = none ∨ VP.parse_date req.end_date = none) →
      ∃ e, VP.generate_visa_pack env req = .error e)
    ∧ (req.destination_countries = [] →
      ∃ e, VP.generate_visa_pack env req = .error e) := by
  constructor
  · intro h
    refine ⟨.valueError, ?_⟩
    rw [VP.generate_visa_pack_eq]
    rw [VP.plan_itinerary_parse_err env (VP.prePlan req) h]
    rfl
  · intro hd
    rcases VP.plan_itinerary_empty_dests env (VP.prePlan req) hd with ⟨e, he⟩ | hok
    · refine ⟨e, ?_⟩
      rw [VP.generate_visa_pack_eq, he]
      rfl
    · cases hf : VP.recommend_flights_agent env { VP.prePlan req with itinerary := [] } with
      | error e =>
        refine ⟨e, ?_⟩
        rw [VP.generate_visa_pack_eq, hok, VP.ok_bind, hf]
        rfl
      | ok p4 =>
        obtain ⟨hpit, hpreq⟩ := VP.recommend_flights_agent_ok_inv env _ p4 hf
        have hhot : VP.recommend_hotels_agent env p4 = .error .indexError := by
          refine VP.recommend_hotels_agent_err env p4 ?_ ?_
          · rw [hpreq]; exact hd
          · rw [hpit]
        refine ⟨.indexError, ?_⟩
        rw [VP.generate_visa_pack_eq, hok, VP.ok_bind, hf, VP.ok_bind, hhot]
        rfl

/-- Counterexample for C5 as stated: valid ISO dates with the end
strictly before the start and a non-empty destination list, yet with
benign collaborators generate_visa_pack returns a completed plan
instead of surfacing a hard error. -/
theorem claim_C5_counterexample :
    (VP.generate_visa_pack VP.envBenign VP.reqEndBeforeStart).isOk = true
    ∧ VP.parse_date VP.reqEndBeforeStart.start_date = some ⟨2025, 6, 12⟩
    ∧ VP.parse_date VP.reqEndBeforeStart.end_date = some ⟨2025, 6, 10⟩
    ∧ VP.dateOrd ⟨2025, 6, 10⟩ < VP.dateOrd ⟨2025, 6, 12⟩
    ∧ VP.reqEndBeforeStart.destination_countries ≠ [] :=
  ⟨rfl, rfl, rfl, by decide, by decide⟩

/-- Witness for C5 at concrete malformed inputs. -/
theorem claim_C5_witness :
    (∃ e, VP.generate_visa_pack VP.envBenign
      { VP.sampleRequest with start_date := "garbage" } = .error e)
    ∧ (∃ e, VP.generate_visa_pack VP.envBenign
      { VP.sampleRequest with destination_countries := [] } = .error e) :=
  ⟨(claim_C5 VP.envBenign _).1 (Or.inl rfl), (claim_C5 VP.envBenign _).2 rfl⟩

namespace VP

theorem addToCity_lookup_self (h : HotelOption) :
    ∀ m : List (String × List HotelOption),
      ((addToCity m h).lookup h.city).getD []
        = ((m.lookup h.city).getD []) ++ [h]
  | [] => by simp [addToCity, List.lookup]
  | (c, l) :: rest => by
    by_cases hc : c = h.city
    · subst hc
      simp [addToCity, List.lookup]
    · have hne : (h.city == c) = false := by
        simp [Ne.symm hc]
      simp [addToCity, hc, List.lookup, hne, addToCity_lookup_self h rest]

theorem addToCity_lookup_other (h : HotelOption) (c : String) (hne : c ≠ h.city) :
    ∀ m : List (String × List HotelOption),
      (addToCity m h).lookup c = m.lookup c
  | [] => by
    have : (c == h.city) = false := by simp [hne]
    simp [addToCity, List.lookup, this]
  | (k, l) :: rest => by
    have hcf : (c == h.city) = false := by simp [hne]
    by_cases hk : k = h.city
    · subst hk
      simp [addToCity, List.lookup, hcf, addToCity_lookup_other h c hne rest]
    · simp [addToCity, hk, List.lookup, addToCity_lookup_other h c hne rest]

theorem lookupD_foldl (c : String) :
    ∀ (hotels : List HotelOption) (m : List (String × List HotelOption)),
      (((hotels.foldl addToCity m).lookup c).getD [])
        = ((m.lookup c).getD []) ++ hotels.filter (fun h => h.city = c)
  | [], m => by simp
  | h :: rest, m => by
    rw [List.foldl_cons, lookupD_foldl c rest (addToCity m h)]
    by_cases hc : h.city = c
    · subst hc
      rw [addToCity_lookup_self h m]
      simp
    · rw [addToCity_lookup_other h c (Ne.symm hc) m]
      simp [hc]

theorem lookupD_build (hotels : List HotelOption) (c : String) :
    (((buildHotelsByCity hotels).lookup c).getD [])
      = hotels.filter (fun h => h.city = c) := by
  rw [buildHotelsByCity, lookupD_foldl c hotels []]
  simp [List.lookup]

theorem mapIdxFrom_length {α β : Type} (f : Nat → α → β) :
    ∀ (k : Nat) (l : List α), (mapIdxFrom f k l).length = l.length
  | _, [] => rfl
  | k, _ :: rest => by simp [mapIdxFrom, mapIdxFrom_length f (k + 1) rest]

theorem mapIdxFrom_get {α β : Type} (f : Nat → α → β) :
    ∀ (k : Nat) (l : List α) (i : Nat) (hi : i < l.length)
      (hi2 : i < (mapIdxFrom f k l).length),
      (mapIdxFrom f k l).get ⟨i, hi2⟩ = f (k + i) (l.get ⟨i, hi⟩)
  | k, x :: rest, 0, _, _ => by simp [mapIdxFrom]
  | k, x :: rest, i + 1, hi, hi2 => by
    have := mapIdxFrom_get f (k + 1) rest i (Nat.lt_of_succ_lt_succ hi)
      (by simpa [mapIdxFrom] using Nat.lt_of_succ_lt_succ hi2)
    simp only [mapIdxFrom, List.get_cons_succ]
    rw [this]
    congr 1
    omega

theorem enrichDay_stay (plan : TripPlan) (hbc : List (String × List HotelOption))
    (theme : String) (n idx : Nat) (day : DayPlan) :
    (enrichDay plan hbc theme n idx day).stay_options
      = stayOptionsFor plan.hotels hbc day.city := by
  simp only [enrichDay]
  repeat' split
  all_goals rfl

theorem stayOptionsFor_cases (hotels : List HotelOption) (c : String) :
    stayOptionsFor hotels (buildHotelsByCity hotels) c
      = (if (hotels.filter (fun h => h.city = c)) = [] ∧ hotels ≠ [] then
          ((hotels.take 3).take 2).map format_hotel_option
        else ((hotels.filter (fun h => h.city = c)).take 2).map format_hotel_option) := by
  rw [stayOptionsFor]
  rw [lookupD_build hotels c]
  by_cases hf : hotels.filter (fun h => h.city = c) = []
  · by_cases hh : hotels = []
    · subst hh
      simp at hf ⊢
    · simp [hf, hh, List.isEmpty_iff]
  · have : ¬ (List.filter (fun h => decide (h.city = c)) hotels).isEmpty = true := by
      simpa [List.isEmpty_iff] using hf
    simp [hf, List.isEmpty_iff]

theorem mapIdxFrom_getElem {α β : Type} (f : Nat → α → β) :
    ∀ (k : Nat) (l : List α) (i : Nat),
      (mapIdxFrom f k l)[i]? = Option.map (f (k + i)) l[i]?
  | _, [], _ => by simp [mapIdxFrom]
  | k, x :: rest, 0 => by simp [mapIdxFrom]
  | k, x :: rest, i + 1 => by
    simp only [mapIdxFrom, List.getElem?_cons_succ]
    rw [mapIdxFrom_getElem f (k + 1) rest i]
    have : k + 1 + i = k + (i + 1) := by omega
    rw [this]

end VP

/-- C6: for every trip plan with a non-empty itinerary,
enrich_itinerary keeps the day count and gives every day at most two
formatted stay options; when some hotel city equals the day city the
options are the first two such hotels formatted, and when none matches
but the plan has hotels they are drawn from the first three plan-wide
hotels. -/
theorem claim_C6 (plan : VP.TripPlan) (hne : plan.itinerary ≠ []) :
    (VP.enrich_itinerary plan).itinerary.length = plan.itinerary.length
    ∧ ∀ (i : Nat) (day eday : VP.DayPlan),
        plan.itinerary[i]? = some day →
        (VP.enrich_itinerary plan).itinerary[i]? = some eday →
        eday.stay_options.length ≤ 2
        ∧ (plan.hotels.filter (fun h => h.city = day.city) ≠ [] →
            eday.stay_options
              = ((plan.hotels.filter (fun h => h.city = day.city)).take 2).map
                  VP.format_hotel_option)
        ∧ (plan.hotels.filter (fun h => h.city = day.city) = [] →
            plan.hotels ≠ [] →
            eday.stay_options
              = ((plan.hotels.take 3).take 2).map VP.format_hotel_option) := by
  have hEmp : plan.itinerary.isEmpty = false := by
    simp [List.isEmpty_iff, hne]
  have hE : (VP.enrich_itinerary plan).itinerary
      = VP.mapIdxFrom
          (VP.enrichDay plan (VP.buildHotelsByCity plan.hotels)
            (VP.pyLower (plan.request.trip_theme.getD "")) plan.itinerary.length)
          0 plan.itinerary := by
    simp [VP.enrich_itinerary, hEmp]
  constructor
  · rw [hE]
    exact VP.mapIdxFrom_length _ 0 plan.itinerary
  · intro i day eday hday heday
    rw [hE, VP.mapIdxFrom_getElem, hday] at heday
    simp only [Option.map_some', Option.some.injEq, Nat.zero_add] at heday
    have hst : eday.stay_options
        = VP.stayOptionsFor plan.hotels (VP.buildHotelsByCity plan.hotels) day.city := by
      rw [← heday]
      exact VP.enrichDay_stay plan _ _ plan.itinerary.length _ day
    rw [VP.stayOptionsFor_cases] at hst
    by_cases hf : plan.hotels.filter (fun h => h.city = day.city) = []
    · by_cases hh : plan.hotels = []
      · rw [if_neg (by simp [hh])] at hst
        refine ⟨?_, ?_, ?_⟩
        · rw [hst]
          simp [hf]
        · intro hcon
          exact absurd hf hcon
        · intro _ hcon
          exact absurd hh hcon
      · rw [if_pos ⟨hf, hh⟩] at hst
        refine ⟨?_, ?_, ?_⟩
        · rw [hst]
          simp only [List.length_map, List.length_take]
          omega
        · intro hcon
          exact absurd hf hcon
        · intro _ _
          exact hst
    · rw [if_neg (by simp [hf])] at hst
      refine ⟨?_, ?_, ?_⟩
      · rw [hst]
        simp only [List.length_map, List.length_take]
        omega
      · intro _
        exact hst
      · intro hcon
        exact absurd hcon hf

/-- Witness for C6 at a concrete two-day plan with three hotels. -/
theorem claim_C6_witness :
    VP.planC6.itinerary ≠ []
    ∧ (VP.enrich_itinerary VP.planC6).itinerary.length
        = VP.planC6.itinerary.length :=
  ⟨by decide, (claim_C6 VP.planC6 (by decide)).1⟩

